import Mathlib

/-!
Dive event markers (`profile-widget/diveeventitem.cpp`)

A shallow embedding of the event-marker code of the profile widget:
the depth lookup `depthAtTime`, the interest filter `isInteresting`,
the icon classifier `setupPixmap`, the tooltip builder
`setupToolTipString` and the placement routine `recalculatePos`.

Conventions of the embedding

* C `int` / `int32_t` values are `Int`; the results of `+` and `*` on
  them are wrapped to 32 bits explicitly.
* A result that the code may fail to give is an `Option`: `none` stands
  for a read outside an array, or for a loop that has not ended within
  the number of iterations it was allowed.
* C strings are `String`; `QString` values are `String` as well.
-/

namespace Subsurface

/-! ## Data model -/

/-- The sentinel of the source: `#define DEPTH_NOT_FOUND (-2342)`. -/
def DEPTH_NOT_FOUND : Int := -2342

/-- One entry of the plot data; only the fields read by this file. -/
structure plot_data where
  sec : Int
  depth : Int
deriving DecidableEq, Repr

/-- The plot info: the array `entry` of `nr` plot entries. -/
structure plot_info where
  entry : List plot_data
deriving DecidableEq, Repr

/-- The number of entries, `pi.nr`. -/
def plot_info.nr (pi : plot_info) : Nat := pi.entry.length

/-! ## Depth lookup -/

/-- The loop of `std::lower_bound` over `[first, first + len)` with the
comparison `d1.sec < t` of the source.  The first argument is the number
of iterations the loop is allowed: when none is left and the loop test
`len > 0` still holds, the result is `none`, the loop has not ended.  A
read outside `entry` gives `none` as well.  So `some it` says that the
loop ended within the allowed iterations, reading inside `entry` only,
and returned `it`. -/
def lowerBoundLoop (entry : List plot_data) (t : Int) : Nat → Nat → Nat → Option Nat
  | 0, first, len => if 0 < len then none else some first
  | fuel + 1, first, len =>
    if 0 < len then
      let half := len / 2
      let middle := first + half
      match entry[middle]? with
      | none => none
      | some d1 =>
        if d1.sec < t then
          lowerBoundLoop entry t fuel (middle + 1) (len - half - 1)
        else
          lowerBoundLoop entry t fuel first half
    else
      some first

/-- The call `std::lower_bound(pi.entry, pi.entry + pi.nr, time, cmp)`: the
index of the returned iterator, the loop being allowed `pi.nr`
iterations. -/
def lower_bound (pi : plot_info) (t : Int) : Option Nat :=
  lowerBoundLoop pi.entry t pi.nr 0 pi.nr

/-- The function `depthAtTime(pi, time)`; `none` when the search does not
end or a read leaves the plot data. -/
def depthAtTime (pi : plot_info) (time : Int) : Option Int :=
  match lower_bound pi time with
  | none => none
  | some it =>
    if it = pi.nr then
      some DEPTH_NOT_FOUND
    else
      match pi.entry[it]? with
      | none => none
      | some d =>
        if d.sec ≠ time then some DEPTH_NOT_FOUND else some d.depth

/-- Sample times are non-decreasing. -/
def SortedByTime (pi : plot_info) : Prop :=
  pi.entry.Pairwise (fun a b => a.sec ≤ b.sec)

/-! ## Integers of the machine -/

/-- The value of a 32-bit signed `int` holding the mathematical integer
`x` after two's-complement wrap-around. -/
def wrap32 (x : Int) : Int := (x + 2147483648) % 4294967296 - 2147483648

/-- The integer `x` is representable as a 32-bit signed `int`. -/
def IsInt32 (x : Int) : Prop := -2147483648 ≤ x ∧ x ≤ 2147483647

instance (x : Int) : Decidable (IsInt32 x) := by
  unfold IsInt32; exact inferInstance

/-! ## Strings -/

/-- The comparison of `strcmp` on the characters of two strings: `0` for
equal strings, otherwise the sign of the first difference. -/
def strcmpChars : List Char → List Char → Int
  | [], [] => 0
  | [], _ :: _ => -1
  | _ :: _, [] => 1
  | a :: as, b :: bs =>
    if a.toNat < b.toNat then -1
    else if b.toNat < a.toNat then 1
    else strcmpChars as bs

/-- The libc call `strcmp(a, b)`, up to the magnitude of a non-zero
result. -/
def strcmp (a b : String) : Int := strcmpChars a.data b.data

/-- Modelled from the spec: `empty_string` of the header
`core/subsurface-string.h`, whose text is missing; it tests for the empty
name. -/
def empty_string (s : String) : Bool := s.data.isEmpty

/-- Modelled from the spec: `same_string` of the header
`core/subsurface-string.h`, whose text is missing; it is exact,
case-sensitive equality. -/
def same_string (a b : String) : Bool := strcmp a b == 0

/-- Modelled from the spec: `same_string_caseinsensitive` of the header
`core/subsurface-string.h`, whose text is missing; it is equality ignoring
the case of the letters `A`-`Z`, as `strcasecmp` does. -/
def same_string_caseinsensitive (a b : String) : Bool :=
  a.data.map Char.toLower == b.data.map Char.toLower

/-! ## Events, gases, dive computers -/

/-- A gas mix: oxygen and helium in permille (`mix.o2.permille`,
`mix.he.permille`). -/
structure gasmix where
  o2 : Int
  he : Int
deriving DecidableEq, Repr

/-- The gas data of an event, `ev->gas`. -/
structure event_gas where
  index : Int
  mix : gasmix
deriving DecidableEq, Repr

/-- An event; `time` is `ev->time.seconds`. -/
structure event where
  time : Int
  type : Int
  flags : Int
  value : Int
  gas : event_gas
  name : String
deriving DecidableEq, Repr

/-- A sample of the dive computer; `time` is `time.seconds`. -/
structure sample where
  time : Int
deriving DecidableEq, Repr

/-- A dive computer: `duration` is `dc->duration.seconds`; `sample` is the
array `dc->sample`, the empty list standing for a null array. -/
structure divecomputer where
  duration : Int
  sample : List sample
deriving DecidableEq, Repr

/-- The output of the counterdiffusion check, `struct icd_data`. -/
structure icd_data where
  dN2 : Int
  dHe : Int
deriving DecidableEq, Repr

/-- The members of `DivePixmaps` that `setupPixmap` chooses from. -/
inductive Icon where
  | warning | bailout | onCCRLoop | bookmark
  | gaschangeTrimixICD | gaschangeTrimix
  | gaschangeAirICD | gaschangeAir
  | gaschangeOxygenICD | gaschangeOxygen
  | gaschangeEANICD | gaschangeEAN
  | transparent | info | violation
deriving DecidableEq, Repr

/-- The pixmap set handed to the item: the height of each member. -/
structure DivePixmaps where
  height : Icon → Int

/-- What the file uses and does not define: constants and macros of the
headers, and functions of the core and of the toolkit.  Each field is
named after the symbol it stands for. -/
structure Externals (Dive : Type) where
  /-- The macro `SURFACE_THRESHOLD`. -/
  SURFACE_THRESHOLD : Int
  /-- The event type `SAMPLE_EVENT_BOOKMARK`. -/
  SAMPLE_EVENT_BOOKMARK : Int
  /-- The event type `SAMPLE_EVENT_PO2`. -/
  SAMPLE_EVENT_PO2 : Int
  /-- The event type `SAMPLE_EVENT_CEILING`. -/
  SAMPLE_EVENT_CEILING : Int
  /-- The flag bit `SAMPLE_FLAGS_BEGIN`. -/
  SAMPLE_FLAGS_BEGIN : Int
  /-- The flag bit `SAMPLE_FLAGS_END`. -/
  SAMPLE_FLAGS_END : Int
  /-- The pair `SAMPLE_FLAGS_SEVERITY_MASK`, `SAMPLE_FLAGS_SEVERITY_SHIFT`
  when the shift is defined, `none` when it is not. -/
  severity : Option (Int × Nat)
  /-- The predicate `event_is_gaschange(ev)`. -/
  event_is_gaschange : event → Bool
  /-- The mix `get_gasmix_from_event(dive, ev)`. -/
  get_gasmix_from_event : Dive → event → gasmix
  /-- The call `isobaric_counterdiffusion(oldgasmix, newgasmix, &icd_data)`:
  its result and the data it writes. -/
  isobaric_counterdiffusion : gasmix → gasmix → Bool × icd_data
  /-- The predicate `gasmix_is_air(mix)`. -/
  gasmix_is_air : gasmix → Bool
  /-- The text `gasname(mix)`. -/
  gasname : gasmix → String
  /-- The table `divemode_text_ui`. -/
  divemode_text_ui : List String
  /-- The translation `gettextFromC::tr(text)`. -/
  gettextFromC_tr : String → String
  /-- The translation `tr(text, disambiguation)` of the item's class. -/
  tr : String → String → String
  /-- The text of `format.arg(n)` for a translated format and an `int`. -/
  QString_arg : String → Int → String
  /-- The text of the `qasprintf_loc` call of the gas-change tooltip, from
  the three translated labels, the data and the flag. -/
  icdText : String → String → String → icd_data → Bool → String
  /-- The text of `(double)value / 1000` printed with format `f` and one
  decimal. -/
  barText : Int → String
  /-- The call `get_depth_units(mm, NULL, &depth_unit)`: the depth value
  rounded to an `int`, and the unit. -/
  get_depth_units : Int → Int × String
  /-- The predicate `is_event_hidden(name, flags)`. -/
  is_event_hidden : String → Int → Bool

/-! ## The icon classifier -/

/-- The severity field `(flags & MASK) >> SHIFT` of the flags. -/
def severityOf (ms : Int × Nat) (flags : Int) : Int :=
  (Int.land flags ms.1) >>> ms.2

/-- The condition of the placeholder branch of `setupPixmap`, in both
variants of the conditional compilation. -/
def isPlaceholder {Dive : Type} (X : Externals Dive) (ev : event) : Bool :=
  (match X.severity with
   | some ms => decide (severityOf ms ev.flags = 1)
   | none => false) ||
  same_string_caseinsensitive ev.name "heading" ||
  (same_string_caseinsensitive ev.name "SP change" && decide (ev.time = 0))

/-- The three severity branches of `setupPixmap`, compiled in when the
shift macro exists: the icon chosen, if any. -/
def severityIcon {Dive : Type} (X : Externals Dive) (ev : event) : Option Icon :=
  match X.severity with
  | none => none
  | some ms =>
    if severityOf ms ev.flags = 2 then some Icon.info
    else if severityOf ms ev.flags = 3 then some Icon.warning
    else if severityOf ms ev.flags = 4 then some Icon.violation
    else none

/-- The icon chosen by the gas-change branch of `setupPixmap`. -/
def gaschangeIcon {Dive : Type} (X : Externals Dive) (dive : Dive) (ev : event)
    (lastgasmix : gasmix) : Icon :=
  let mix := X.get_gasmix_from_event dive ev
  let icd := (X.isobaric_counterdiffusion lastgasmix mix).1
  if mix.he ≠ 0 then
    if icd then Icon.gaschangeTrimixICD else Icon.gaschangeTrimix
  else if X.gasmix_is_air mix then
    if icd then Icon.gaschangeAirICD else Icon.gaschangeAir
  else if mix.o2 = 1000 then
    if icd then Icon.gaschangeOxygenICD else Icon.gaschangeOxygen
  else
    if icd then Icon.gaschangeEANICD else Icon.gaschangeEAN

/-- The method `setupPixmap(lastgasmix, pixmaps)`: the member of `pixmaps`
passed to `setPixmap`, and the offset passed to `setOffset` when it is
called. -/
def setupPixmap {Dive : Type} (X : Externals Dive) (dive : Dive) (ev : event)
    (lastgasmix : gasmix) (pixmaps : DivePixmaps) : Icon × Option (Int × Int) :=
  if empty_string ev.name then
    (Icon.warning, none)
  else if same_string_caseinsensitive ev.name "modechange" then
    if ev.value = 0 then (Icon.bailout, none) else (Icon.onCCRLoop, none)
  else if ev.type = X.SAMPLE_EVENT_BOOKMARK then
    (Icon.bookmark, some (0, -(pixmaps.height Icon.bookmark)))
  else if X.event_is_gaschange ev then
    (gaschangeIcon X dive ev lastgasmix, none)
  else if isPlaceholder X ev then
    (Icon.transparent, none)
  else
    match severityIcon X ev with
    | some icon => (icon, none)
    | none =>
      if same_string_caseinsensitive ev.name "violation" ||
         same_string_caseinsensitive ev.name "Safety stop violation" ||
         same_string_caseinsensitive ev.name "pO₂ ascend alarm" ||
         same_string_caseinsensitive ev.name "RGT alert" ||
         same_string_caseinsensitive ev.name "Dive time alert" ||
         same_string_caseinsensitive ev.name "Low battery alert" ||
         same_string_caseinsensitive ev.name "Speed alarm" then
        (Icon.violation, none)
      else if same_string_caseinsensitive ev.name "non stop time" ||
         same_string_caseinsensitive ev.name "safety stop" ||
         same_string_caseinsensitive ev.name "safety stop (voluntary)" ||
         same_string_caseinsensitive ev.name "Tank change suggested" ||
         same_string_caseinsensitive ev.name "Marker" then
        (Icon.info, none)
      else
        (Icon.warning, none)

/-! ## The tooltip builder -/

/-- The fixed text put before the name by `setToolTip`. -/
def toolTipImg : String :=
  "<img height=\"16\" src=\":status-warning-icon\">&nbsp;  "

/-- The read `divemode_text_ui[value]`; `none` outside the table. -/
def divemodeText {Dive : Type} (X : Externals Dive) (value : Int) : Option String :=
  if 0 ≤ value then X.divemode_text_ui[value.toNat]? else none

/-- The text appended to the name by the gas-change branch of
`setupToolTipString`. -/
def gaschangeText {Dive : Type} (X : Externals Dive) (dive : Dive) (ev : event)
    (lastgasmix : gasmix) : String :=
  let mix := X.get_gasmix_from_event dive ev
  let cyl := if 0 ≤ ev.gas.index then
      X.QString_arg (X.tr " (cyl. %1)" "") (wrap32 (ev.gas.index + 1)) else ""
  let r := X.isobaric_counterdiffusion lastgasmix mix
  let warn := if r.2.dHe < 0 then
      "\n" ++ X.icdText (X.tr "ICD" "") (X.tr "ΔHe" "") (X.tr "ΔN₂" "") r.2 r.1 else ""
  ": " ++ X.gasname mix ++ cyl ++ warn

/-- The text appended to the name by the branch of `setupToolTipString`
for a non-zero value. -/
def valueText {Dive : Type} (X : Externals Dive) (ev : event) : String :=
  if ev.type = X.SAMPLE_EVENT_PO2 && same_string ev.name "SP change" then
    ": " ++ X.barText ev.value ++ "bar"
  else if ev.type = X.SAMPLE_EVENT_CEILING &&
      same_string ev.name "planned waypoint above ceiling" then
    let du := X.get_depth_units (wrap32 (ev.value * 1000))
    ": " ++ toString du.1 ++ du.2
  else
    ": " ++ toString ev.value

/-- The method `setupToolTipString(lastgasmix)`: the text passed to
`setToolTip`; `none` when the mode table is read outside its bounds. -/
def setupToolTipString {Dive : Type} (X : Externals Dive) (dive : Dive) (ev : event)
    (lastgasmix : gasmix) : Option String :=
  let name := X.gettextFromC_tr ev.name
  if X.event_is_gaschange ev then
    some (toolTipImg ++ (name ++ gaschangeText X dive ev lastgasmix))
  else if same_string ev.name "modechange" then
    match divemodeText X ev.value with
    | none => none
    | some mode => some (toolTipImg ++ (name ++ (": " ++ X.gettextFromC_tr mode)))
  else if ev.value ≠ 0 then
    some (toolTipImg ++ (name ++ valueText X ev))
  else if ev.type = X.SAMPLE_EVENT_PO2 && same_string ev.name "SP change" then
    some (toolTipImg ++ (name ++ (":\n" ++ X.tr "Manual switch to OC" "")))
  else
    some (toolTipImg ++ (name ++
      (if Int.land ev.flags X.SAMPLE_FLAGS_BEGIN ≠ 0 then X.tr " begin" "Starts with space!"
       else if Int.land ev.flags X.SAMPLE_FLAGS_END ≠ 0 then X.tr " end" "Starts with space!"
       else "")))

/-! ## The interest filter -/

/-- The first test of `isInteresting`: the event lies outside the plot
range. -/
def outsidePlotRange (ev : event) (firstSecond lastSecond : Int) : Bool :=
  decide (ev.time < firstSecond) || decide (ev.time ≥ lastSecond)

/-- The last test of `isInteresting`, for an event named "surface". -/
def surfaceUninteresting (dc : divecomputer) (ev : event) : Bool :=
  let time := ev.time
  decide (time ≤ 30) || decide (wrap32 (time + 30) ≥ wrap32 dc.duration)

/-- The condition of the second test of `isInteresting`, the operators
`&&` and `||` evaluated left to right and only as far as needed; `none`
when the depth lookup gives no result. -/
def initialGaschange {Dive : Type} (X : Externals Dive) (dc : divecomputer)
    (ev : event) (pi : plot_info) : Option Bool :=
  let first_sample : Option sample := dc.sample.head?
  if strcmp ev.name "gaschange" = 0 then
    if ev.time = 0 then some true
    else if (match first_sample with
             | some s => decide (ev.time = s.time)
             | none => false) then some true
    else
      match depthAtTime pi ev.time with
      | none => none
      | some depth => some (decide (depth < X.SURFACE_THRESHOLD))
  else
    some false

/-- The static method `isInteresting(d, dc, ev, pi, firstSecond,
lastSecond)`; `none` when the depth lookup gives no result. -/
def isInteresting {Dive : Type} (X : Externals Dive) (_d : Dive) (dc : divecomputer)
    (ev : event) (pi : plot_info) (firstSecond lastSecond : Int) : Option Bool :=
  if outsidePlotRange ev firstSecond lastSecond then
    some false
  else
    match initialGaschange X dc ev pi with
    | none => none
    | some true => some false
    | some false =>
      if strcmp ev.name "surface" = 0 then
        if surfaceUninteresting dc ev then some false else some true
      else
        some true

/-! ## Placement -/

/-- An axis of the profile: its method `posAtValue`. -/
structure DiveCartesianAxis (Coord : Type) where
  posAtValue : Int → Coord

/-- The state of the base class that this file reads or writes. -/
structure DivePixmapItem (Coord : Type) where
  pixmap : Option Icon
  offset : Int × Int
  toolTip : String
  visible : Bool
  pos : Coord × Coord

/-- The item: the members of `DiveEventItem` on top of the base class. -/
structure DiveEventItem (Dive Coord : Type) extends DivePixmapItem Coord where
  vAxis : DiveCartesianAxis Coord
  hAxis : DiveCartesianAxis Coord
  ev : Option event
  dive : Dive
  depth : Int

/-- The method `shouldBeHidden()`, for an item with an event. -/
def shouldBeHidden {Dive : Type} (X : Externals Dive) (ev : event) : Bool :=
  X.is_event_hidden ev.name ev.flags

/-- The method `recalculatePos()`. -/
def recalculatePos {Dive Coord : Type} (X : Externals Dive)
    (item : DiveEventItem Dive Coord) : DiveEventItem Dive Coord :=
  match item.ev with
  | none => item
  | some ev =>
    if item.depth = DEPTH_NOT_FOUND then
      { item with visible := false }
    else
      { item with
        visible := !shouldBeHidden X ev
        pos := (item.hAxis.posAtValue ev.time, item.vAxis.posAtValue item.depth) }

/-- The constructor `DiveEventItem::DiveEventItem`: `base` is the freshly
built base-class part; `none` when the depth lookup gives no result or the
tooltip reads outside the mode table. -/
def DiveEventItem.ctor {Dive Coord : Type} (X : Externals Dive)
    (base : DivePixmapItem Coord) (d : Dive) (ev : event) (lastgasmix : gasmix)
    (pi : plot_info) (hAxis vAxis : DiveCartesianAxis Coord) (pixmaps : DivePixmaps) :
    Option (DiveEventItem Dive Coord) :=
  match depthAtTime pi ev.time with
  | none => none
  | some depth =>
    let px := setupPixmap X d ev lastgasmix pixmaps
    match setupToolTipString X d ev lastgasmix with
    | none => none
    | some tip =>
      some (recalculatePos X
        { pixmap := some px.1
          offset := px.2.getD base.offset
          toolTip := tip
          visible := base.visible
          pos := base.pos
          vAxis := vAxis
          hAxis := hAxis
          ev := some ev
          dive := d
          depth := depth })

/-! ## Concrete inputs -/

/-- A concrete set of collaborators on which the code is evaluated: the
event types and flag bits numbered as in the dive-computer library
(ceiling 4, bookmark 8, gas change 11 and 25, pO₂ 20; begin 1, end 2,
severity in bits 2-4), a surface threshold of 750 mm, untranslated texts,
and the mode table starting with the open-circuit text. -/
def sampleExternals : Externals Unit where
  SURFACE_THRESHOLD := 750
  SAMPLE_EVENT_BOOKMARK := 8
  SAMPLE_EVENT_PO2 := 20
  SAMPLE_EVENT_CEILING := 4
  SAMPLE_FLAGS_BEGIN := 1
  SAMPLE_FLAGS_END := 2
  severity := some (28, 2)
  event_is_gaschange := fun ev => decide (ev.type = 11) || decide (ev.type = 25)
  get_gasmix_from_event := fun _ ev => ev.gas.mix
  isobaric_counterdiffusion := fun o n =>
    let dN2 := (1000 - n.o2 - n.he) - (1000 - o.o2 - o.he)
    let dHe := n.he - o.he
    (decide (0 < o.he) && decide (0 < dN2) && decide (dHe < 0) && decide (-dHe < 5 * dN2),
     { dN2 := dN2, dHe := dHe })
  gasmix_is_air := fun m => decide (m.he = 0) && (decide (m.o2 = 0) || decide (m.o2 = 209))
  gasname := fun m =>
    if m.he ≠ 0 then "trimix" else if m.o2 = 0 ∨ m.o2 = 209 then "air"
    else if m.o2 = 1000 then "oxygen" else "EAN"
  divemode_text_ui := ["Open circuit", "CCR", "pSCR", "Freedive"]
  gettextFromC_tr := fun s => s
  tr := fun s _ => s
  QString_arg := fun _ _ => " (cyl.)"
  icdText := fun a _ _ _ _ => a
  barText := fun _ => "0.0"
  get_depth_units := fun mm => (mm / 1000, "m")
  is_event_hidden := fun _ _ => false

/-- A pixmap set in which every pixmap is 16 pixels high. -/
def samplePixmaps : DivePixmaps := { height := fun _ => 16 }

/-- An event with the given name, type, value and time, no flags and no
gas data. -/
def mkEvent (name : String) (type value time : Int) : event :=
  { time := time, type := type, flags := 0, value := value,
    gas := { index := -1, mix := { o2 := 0, he := 0 } }, name := name }

/-- An event of type `SAMPLE_EVENT_GASCHANGE2` (25 in `sampleExternals`)
with the given name, time and mix, and no cylinder index. -/
def mkGaschange (name : String) (time : Int) (mix : gasmix) : event :=
  { time := time, type := 25, flags := 0, value := 0,
    gas := { index := -1, mix := mix }, name := name }

/-- Air, as a gas mix. -/
def air : gasmix := { o2 := 209, he := 0 }

/-- The gas families of the icon classifier. -/
inductive GasFamily where
  | trimix | air | oxygen | ean
deriving DecidableEq, Repr

/-- The gas family an icon belongs to, if it is a gas-change icon. -/
def Icon.family : Icon → Option GasFamily
  | .gaschangeTrimixICD | .gaschangeTrimix => some .trimix
  | .gaschangeAirICD | .gaschangeAir => some .air
  | .gaschangeOxygenICD | .gaschangeOxygen => some .oxygen
  | .gaschangeEANICD | .gaschangeEAN => some .ean
  | _ => none

/-- Whether an icon is the ICD variant of its gas family. -/
def Icon.isICD : Icon → Bool
  | .gaschangeTrimixICD | .gaschangeAirICD | .gaschangeOxygenICD | .gaschangeEANICD => true
  | _ => false

/-- The sample series `[(0,0),(10,5),(20,12)]`. -/
def profileA : plot_info :=
  { entry := [⟨0, 0⟩, ⟨10, 5⟩, ⟨20, 12⟩] }

/-- The dive computer used on concrete inputs: 100 seconds long, its first
sample at time 0. -/
def sampleComputer : divecomputer := { duration := 100, sample := [{ time := 0 }] }

/-- A plot with a sample at 10 seconds lying exactly at 750 mm. -/
def profileB : plot_info := { entry := [⟨0, 0⟩, ⟨10, 750⟩, ⟨20, 1200⟩] }

/-- An axis mapping a value to itself. -/
def identityAxis : DiveCartesianAxis Int := { posAtValue := fun v => v }

/-- A fresh base item: no pixmap, visible, at the origin. -/
def freshBase : DivePixmapItem Int :=
  { pixmap := none, offset := (0, 0), toolTip := "", visible := true, pos := (0, 0) }

/-- An event with the given name, type, flags, value and time, and no gas
data. -/
def mkFlagged (name : String) (type flags value time : Int) : event :=
  { time := time, type := type, flags := flags, value := value,
    gas := { index := -1, mix := { o2 := 0, he := 0 } }, name := name }

/-- The names of the violation branch of `setupPixmap`, in its order. -/
def violationNames : List String :=
  ["violation", "Safety stop violation", "pO₂ ascend alarm", "RGT alert",
   "Dive time alert", "Low battery alert", "Speed alarm"]

/-- The names of the info branch of `setupPixmap`, in its order. -/
def infoNames : List String :=
  ["non stop time", "safety stop", "safety stop (voluntary)",
   "Tank change suggested", "Marker"]

/-- The name equals, ignoring case, one of the given names. -/
def nameAmong (name : String) (names : List String) : Bool :=
  names.any (fun n => same_string_caseinsensitive name n)

/-- A sample series that is not sorted by time. -/
def profileU : plot_info := { entry := [⟨20, 7⟩, ⟨10, 5⟩, ⟨20, 9⟩] }

/-! ## Facts about the depth lookup -/

/-- The search loop stays inside the array and returns an index of the
range it was given, sorted or not. -/
theorem lowerBoundLoop_total (entry : List plot_data) (t : Int) :
    ∀ (fuel first len : Nat), len ≤ fuel → first + len ≤ entry.length →
      ∃ r, lowerBoundLoop entry t fuel first len = some r ∧ first ≤ r ∧ r ≤ first + len := by
  intro fuel
  induction fuel with
  | zero =>
    intro first len hl _
    have hz : len = 0 := by omega
    subst hz
    exact ⟨first, by simp [lowerBoundLoop], le_refl _, by omega⟩
  | succ n ih =>
    intro first len hl hb
    unfold lowerBoundLoop
    by_cases hpos : 0 < len
    · have hmid : first + len / 2 < entry.length := by omega
      simp only [hpos, if_true, List.getElem?_eq_getElem hmid]
      by_cases hc : (entry[first + len / 2]).sec < t
      · simp only [hc, if_true]
        obtain ⟨r, hr, h1, h2⟩ := ih (first + len / 2 + 1) (len - len / 2 - 1)
          (by omega) (by omega)
        exact ⟨r, hr, by omega, by omega⟩
      · simp only [hc, if_false]
        obtain ⟨r, hr, h1, h2⟩ := ih first (len / 2) (by omega) (by omega)
        exact ⟨r, hr, h1, by omega⟩
    · exact ⟨first, by simp [hpos], le_refl _, by omega⟩

/-- On an array whose entries before `first` are earlier than `t` and whose
entries from `first + len` on are not, the loop returns the partition
point. -/
theorem lowerBoundLoop_partition (entry : List plot_data) (t : Int)
    (hs : entry.Pairwise (fun a b => a.sec ≤ b.sec)) :
    ∀ (fuel first len : Nat), len ≤ fuel → first + len ≤ entry.length →
      (∀ i (h : i < entry.length), i < first → (entry.get ⟨i, h⟩).sec < t) →
      (∀ i (h : i < entry.length), first + len ≤ i → t ≤ (entry.get ⟨i, h⟩).sec) →
      ∃ r, lowerBoundLoop entry t fuel first len = some r ∧ r ≤ entry.length ∧
        (∀ i (h : i < entry.length), i < r → (entry.get ⟨i, h⟩).sec < t) ∧
        (∀ i (h : i < entry.length), r ≤ i → t ≤ (entry.get ⟨i, h⟩).sec) := by
  intro fuel
  induction fuel with
  | zero =>
    intro first len hl hb hlo hhi
    have : len = 0 := by omega
    subst this
    exact ⟨first, by simp [lowerBoundLoop], by omega, hlo, fun i h hi => hhi i h (by omega)⟩
  | succ n ih =>
    intro first len hl hb hlo hhi
    unfold lowerBoundLoop
    by_cases hpos : 0 < len
    · have hmid : first + len / 2 < entry.length := by omega
      simp only [hpos, if_true, List.getElem?_eq_getElem hmid]
      by_cases hc : (entry[first + len / 2]).sec < t
      · simp only [hc, if_true]
        apply ih (first + len / 2 + 1) (len - len / 2 - 1) (by omega) (by omega)
        · intro i h hi
          by_cases hEq : i = first + len / 2
          · subst hEq; exact hc
          · have hlt : i < first + len / 2 := by omega
            have := List.pairwise_iff_get.mp hs ⟨i, h⟩ ⟨first + len / 2, hmid⟩ hlt
            exact lt_of_le_of_lt this hc
        · intro i h hi
          exact hhi i h (by omega)
      · simp only [hc, if_false]
        apply ih first (len / 2) (by omega) (by omega) hlo
        intro i h hi
        by_cases hEq : i = first + len / 2
        · subst hEq; exact not_lt.mp hc
        · have hlt : first + len / 2 < i := by omega
          have := List.pairwise_iff_get.mp hs ⟨first + len / 2, hmid⟩ ⟨i, h⟩ hlt
          exact le_trans (not_lt.mp hc) this
    · have : len = 0 := by omega
      subst this
      exact ⟨first, by simp, by omega, hlo, fun i h hi => hhi i h (by omega)⟩

/-- The depth lookup never reads outside the plot data, and what it
returns is described by the index `r` the search stops at. -/
theorem depthAtTime_spec_total (pi : plot_info) (t : Int) :
    ∃ r, lower_bound pi t = some r ∧ r ≤ pi.entry.length ∧
      depthAtTime pi t = some
        (if h : r < pi.entry.length then
          (if (pi.entry.get ⟨r, h⟩).sec = t then (pi.entry.get ⟨r, h⟩).depth
           else DEPTH_NOT_FOUND)
         else DEPTH_NOT_FOUND) := by
  obtain ⟨r, hr, _, h2⟩ := lowerBoundLoop_total pi.entry t pi.nr 0 pi.nr (le_refl _)
    (by simp [plot_info.nr])
  have hle : r ≤ pi.entry.length := by simpa [plot_info.nr] using h2
  have hr2 : lower_bound pi t = some r := hr
  refine ⟨r, hr2, hle, ?_⟩
  unfold depthAtTime
  rw [hr2]
  by_cases hlt : r < pi.entry.length
  · have hne : r ≠ pi.nr := by simp [plot_info.nr]; omega
    simp only [hne, if_false, List.getElem?_eq_getElem hlt, dif_pos hlt, List.get_eq_getElem]
    by_cases hs : (pi.entry[r]).sec = t
    · simp [hs]
    · simp [hs]
  · have he : r = pi.nr := by simp [plot_info.nr]; omega
    simp [he, plot_info.nr]

/-- On sorted plot data the index the search stops at is the partition
point of the comparison with `t`. -/
theorem lower_bound_sorted (pi : plot_info) (t : Int) (hs : SortedByTime pi) :
    ∃ r, lower_bound pi t = some r ∧ r ≤ pi.entry.length ∧
      (∀ i (h : i < pi.entry.length), i < r → (pi.entry.get ⟨i, h⟩).sec < t) ∧
      (∀ i (h : i < pi.entry.length), r ≤ i → t ≤ (pi.entry.get ⟨i, h⟩).sec) := by
  have := lowerBoundLoop_partition pi.entry t hs pi.nr 0 pi.nr (le_refl _)
    (by simp [plot_info.nr]) (fun i _ hi => absurd hi (Nat.not_lt_zero i))
    (fun i h hi => absurd h (by simp [plot_info.nr] at hi; omega))
  exact this

/-! ## C1: the depth lookup on sorted samples -/

/-- C1: on samples whose times are non-decreasing, `depthAtTime` returns
the depth of the first sample whose time is exactly `t` when there is one
(so, when some sample has time `t`, the depth of a sample with time `t`),
and the sentinel `DEPTH_NOT_FOUND = -2342` when no sample has time `t`,
the empty series included. -/
theorem depthAtTime_sorted (pi : plot_info) (t : Int) (hs : SortedByTime pi) :
    (∀ i (h : i < pi.entry.length), (pi.entry.get ⟨i, h⟩).sec = t →
        (∀ j (hj : j < pi.entry.length), j < i → (pi.entry.get ⟨j, hj⟩).sec ≠ t) →
        depthAtTime pi t = some (pi.entry.get ⟨i, h⟩).depth) ∧
    ((∃ d ∈ pi.entry, d.sec = t) →
        ∃ d ∈ pi.entry, d.sec = t ∧ depthAtTime pi t = some d.depth) ∧
    ((∀ d ∈ pi.entry, d.sec ≠ t) → depthAtTime pi t = some DEPTH_NOT_FOUND) ∧
    DEPTH_NOT_FOUND = -2342 := by
  obtain ⟨r, hr, hle, hlo, hhi⟩ := lower_bound_sorted pi t hs
  obtain ⟨r', hr', _, hd⟩ := depthAtTime_spec_total pi t
  have hrr : r' = r := by rw [hr] at hr'; exact (Option.some.inj hr').symm
  subst hrr
  -- a sample with time `t` sits at or after `r'`, and `r'` itself has time `t`
  have key : ∀ i (h : i < pi.entry.length), (pi.entry.get ⟨i, h⟩).sec = t →
      ∃ hr : r' < pi.entry.length, r' ≤ i ∧ (pi.entry.get ⟨r', hr⟩).sec = t := by
    intro i h hi
    have hri : r' ≤ i := by
      by_contra hc
      have := hlo i h (by omega)
      omega
    have hrlt : r' < pi.entry.length := by omega
    refine ⟨hrlt, hri, ?_⟩
    have h1 := hhi r' hrlt (le_refl _)
    have h2 : (pi.entry.get ⟨r', hrlt⟩).sec ≤ (pi.entry.get ⟨i, h⟩).sec := by
      rcases Nat.eq_or_lt_of_le hri with he | hlt
      · subst he; exact le_refl _
      · exact List.pairwise_iff_get.mp hs ⟨r', hrlt⟩ ⟨i, h⟩ hlt
    omega
  refine ⟨?_, ?_, ?_, rfl⟩
  · intro i h hi hmin
    obtain ⟨hrlt, hri, hrt⟩ := key i h hi
    have : r' = i := by
      rcases Nat.eq_or_lt_of_le hri with he | hlt
      · exact he
      · exact absurd hrt (hmin r' hrlt hlt)
    subst this
    rw [hd, dif_pos h, if_pos hi]
  · rintro ⟨d, hmem, hdt⟩
    obtain ⟨⟨i, h⟩, hi⟩ := List.mem_iff_get.mp hmem
    subst hi
    obtain ⟨hrlt, _, hrt⟩ := key i h hdt
    refine ⟨pi.entry.get ⟨r', hrlt⟩, List.get_mem _ _ _, hrt, ?_⟩
    rw [hd, dif_pos hrlt, if_pos hrt]
  · intro hnone
    rw [hd]
    by_cases hrlt : r' < pi.entry.length
    · have := hnone _ (List.get_mem pi.entry r' hrlt)
      rw [dif_pos hrlt, if_neg this]
    · rw [dif_neg hrlt]

/-- C1, on the series `[(0,0),(10,5),(20,12)]`: the lookup gives `5` for
`t = 10` and the sentinel for `t = 15`. -/
theorem depthAtTime_sorted_witness :
    SortedByTime profileA ∧ depthAtTime profileA 10 = some 5 ∧
      depthAtTime profileA 15 = some (-2342) :=
  ⟨by unfold SortedByTime profileA; decide,
   (depthAtTime_sorted profileA 10 (by unfold SortedByTime profileA; decide)).1 1
      (by decide) (by decide) (by decide),
   (depthAtTime_sorted profileA 15 (by unfold SortedByTime profileA; decide)).2.2.1
      (by decide)⟩

/-! ## Auxiliary facts -/

/-- The character comparison is `0` exactly on equal lists. -/
theorem strcmpChars_eq_zero : ∀ (a b : List Char), strcmpChars a b = 0 ↔ a = b
  | [], [] => by simp [strcmpChars]
  | [], _ :: _ => by simp [strcmpChars]
  | _ :: _, [] => by simp [strcmpChars]
  | a :: as, b :: bs => by
    unfold strcmpChars
    by_cases h1 : a.toNat < b.toNat
    · have : a ≠ b := by rintro rfl; omega
      simp [h1, this]
    · by_cases h2 : b.toNat < a.toNat
      · have : a ≠ b := by rintro rfl; omega
        simp [h1, h2, this]
      · have hn : a.toNat = b.toNat := by omega
        have hab : a = b :=
          (Char.ofNat_toNat a).symm.trans ((congrArg Char.ofNat hn).trans (Char.ofNat_toNat b))
        simp [h1, h2, hab, strcmpChars_eq_zero as bs]

/-- The call `strcmp(a, b)` returns `0` exactly when `a` and `b` are equal. -/
theorem strcmp_eq_zero (a b : String) : strcmp a b = 0 ↔ a = b := by
  unfold strcmp
  rw [strcmpChars_eq_zero]
  exact String.ext_iff.symm

/-- The test `same_string` is equality. -/
theorem same_string_iff (a b : String) : same_string a b = true ↔ a = b := by
  unfold same_string
  rw [beq_iff_eq, strcmp_eq_zero]

/-- A value in the range of `int` is unchanged by wrap-around. -/
theorem wrap32_of_IsInt32 (x : Int) (h : IsInt32 x) : wrap32 x = x := by
  unfold IsInt32 at h
  unfold wrap32
  omega

/-- The depth lookup always returns. -/
theorem depthAtTime_returns (pi : plot_info) (t : Int) : ∃ depth, depthAtTime pi t = some depth := by
  obtain ⟨r, _, _, h⟩ := depthAtTime_spec_total pi t
  exact ⟨_, h⟩

/-- When no sample has time `t`, sorted or not, the lookup returns the
sentinel. -/
theorem depthAtTime_of_absent (pi : plot_info) (t : Int)
    (h : ∀ s ∈ pi.entry, s.sec ≠ t) : depthAtTime pi t = some DEPTH_NOT_FOUND := by
  obtain ⟨r, _, _, hd⟩ := depthAtTime_spec_total pi t
  rw [hd]
  by_cases hrlt : r < pi.entry.length
  · rw [dif_pos hrlt, if_neg (h _ (List.get_mem pi.entry r hrlt))]
  · rw [dif_neg hrlt]

/-- The search loop halves its range: allowed `fuel` iterations with
`len < 2 ^ fuel`, it is never cut short, so it gives the same result as
under any other such allowance. -/
theorem lowerBoundLoop_enough (entry : List plot_data) (t : Int) :
    ∀ (fuel fuel' first len : Nat), len < 2 ^ fuel → len < 2 ^ fuel' →
      lowerBoundLoop entry t fuel first len = lowerBoundLoop entry t fuel' first len := by
  intro fuel
  induction fuel with
  | zero =>
    intro fuel' first len hl _
    have hz : len = 0 := by simpa using hl
    subst hz
    cases fuel' <;> simp [lowerBoundLoop]
  | succ n ih =>
    intro fuel' first len hl hl'
    cases fuel' with
    | zero =>
      have hz : len = 0 := by simpa using hl'
      subst hz
      simp [lowerBoundLoop]
    | succ m =>
      have hn : 2 ^ (n + 1) = 2 * 2 ^ n := by rw [Nat.pow_succ, Nat.mul_comm]
      have hm : 2 ^ (m + 1) = 2 * 2 ^ m := by rw [Nat.pow_succ, Nat.mul_comm]
      rw [hn] at hl
      rw [hm] at hl'
      unfold lowerBoundLoop
      by_cases hpos : 0 < len
      · simp only [hpos, if_true]
        cases entry[first + len / 2]? with
        | none => rfl
        | some d1 =>
          simp only
          by_cases hc : d1.sec < t
          · simp only [hc, if_true]
            exact ih m _ _ (by omega) (by omega)
          · simp only [hc, if_false]
            exact ih m _ _ (by omega) (by omega)
      · simp [hpos]

/-- For an event not named "gaschange" the second test of the interest
filter is false. -/
theorem initialGaschange_other {Dive : Type} (X : Externals Dive) (dc : divecomputer)
    (ev : event) (pi : plot_info) (h : ev.name ≠ "gaschange") :
    initialGaschange X dc ev pi = some false := by
  have hg : strcmp ev.name "gaschange" ≠ 0 := fun e => h ((strcmp_eq_zero _ _).mp e)
  unfold initialGaschange
  simp [hg]

/-- A name equal to a non-empty text ignoring case is not empty. -/
theorem not_empty_of_same_caseinsensitive (a b : String) (hb : b.data ≠ [])
    (h : same_string_caseinsensitive a b = true) : empty_string a = false := by
  unfold same_string_caseinsensitive at h
  unfold empty_string
  rw [beq_iff_eq] at h
  cases ha : a.data with
  | nil => rw [ha] at h; simp at h; exact absurd h.symm (by simpa using hb)
  | cons c cs => rfl

/-! ## C2: the gas-change icon -/

/-- C2: for a gas-change event that reaches the gas-change rule of
`setupPixmap` (name not empty, not "modechange" ignoring case, type not
bookmark), with `mix` the mix of the event and `icd` the result of the
counterdiffusion check against the previous mix, the icon is of the
trimix family if the helium permille is non-zero, else of the air family
if the mix is air, else of the oxygen family if the oxygen permille is
1000, else of the EAN family; and it is the ICD variant exactly when
`icd` is true. -/
theorem setupPixmap_gaschange {Dive : Type} (X : Externals Dive) (dive : Dive) (ev : event)
    (lastgasmix : gasmix) (pixmaps : DivePixmaps)
    (hname : empty_string ev.name = false)
    (hmode : same_string_caseinsensitive ev.name "modechange" = false)
    (hbook : ev.type ≠ X.SAMPLE_EVENT_BOOKMARK)
    (hgas : X.event_is_gaschange ev = true) :
    (((X.get_gasmix_from_event dive ev).he ≠ 0 →
        (setupPixmap X dive ev lastgasmix pixmaps).1.family = some GasFamily.trimix) ∧
     ((X.get_gasmix_from_event dive ev).he = 0 →
        X.gasmix_is_air (X.get_gasmix_from_event dive ev) = true →
        (setupPixmap X dive ev lastgasmix pixmaps).1.family = some GasFamily.air) ∧
     ((X.get_gasmix_from_event dive ev).he = 0 →
        X.gasmix_is_air (X.get_gasmix_from_event dive ev) = false →
        (X.get_gasmix_from_event dive ev).o2 = 1000 →
        (setupPixmap X dive ev lastgasmix pixmaps).1.family = some GasFamily.oxygen) ∧
     ((X.get_gasmix_from_event dive ev).he = 0 →
        X.gasmix_is_air (X.get_gasmix_from_event dive ev) = false →
        (X.get_gasmix_from_event dive ev).o2 ≠ 1000 →
        (setupPixmap X dive ev lastgasmix pixmaps).1.family = some GasFamily.ean)) ∧
    (setupPixmap X dive ev lastgasmix pixmaps).1.isICD =
      (X.isobaric_counterdiffusion lastgasmix (X.get_gasmix_from_event dive ev)).1 := by
  have hp : setupPixmap X dive ev lastgasmix pixmaps =
      (gaschangeIcon X dive ev lastgasmix, none) := by
    unfold setupPixmap
    simp [hname, hmode, hbook, hgas]
  rw [hp]
  unfold gaschangeIcon
  cases hicd : (X.isobaric_counterdiffusion lastgasmix (X.get_gasmix_from_event dive ev)).1 <;>
    refine ⟨⟨?_, ?_, ?_, ?_⟩, ?_⟩ <;>
    first
      | (intro h1 h2 h3; simp [h1, h2, h3, hicd, Icon.family])
      | (intro h1 h2; simp [h1, h2, hicd, Icon.family])
      | (intro h1; simp [h1, hicd, Icon.family])
      | (by_cases h1 : (X.get_gasmix_from_event dive ev).he = 0 <;>
         by_cases h2 : X.gasmix_is_air (X.get_gasmix_from_event dive ev) = true <;>
         by_cases h3 : (X.get_gasmix_from_event dive ev).o2 = 1000 <;>
         simp [h1, h2, h3, hicd, Icon.isICD])

/-- C2, on a change to a 21/35 trimix from air with the sample
collaborators: the icon is the plain trimix icon. -/
theorem setupPixmap_gaschange_witness :
    (setupPixmap sampleExternals () (mkGaschange "gaschange" 600 ⟨210, 350⟩) air
        samplePixmaps).1.family = some GasFamily.trimix ∧
    (setupPixmap sampleExternals () (mkGaschange "gaschange" 600 ⟨210, 350⟩) air
        samplePixmaps).1.isICD = false :=
  ⟨(setupPixmap_gaschange sampleExternals () (mkGaschange "gaschange" 600 ⟨210, 350⟩) air
      samplePixmaps (by decide) (by decide) (by decide) (by decide)).1.1 (by decide),
   (setupPixmap_gaschange sampleExternals () (mkGaschange "gaschange" 600 ⟨210, 350⟩) air
      samplePixmaps (by decide) (by decide) (by decide) (by decide)).2⟩

/-! ## C3: gas changes and the interest filter -/

/-- C3: for an event named exactly "gaschange", `isInteresting` returns
false when the event time is 0, or equals the time of the first sample of
the dive computer, or when `depthAtTime` at the event time is below
`SURFACE_THRESHOLD`, for every plot window; the depth lookup it relies on
always returns. -/
theorem isInteresting_gaschange {Dive : Type} (X : Externals Dive) (d : Dive)
    (dc : divecomputer) (ev : event) (pi : plot_info) (firstSecond lastSecond : Int)
    (hname : ev.name = "gaschange")
    (h : ev.time = 0 ∨
         (∃ s, dc.sample.head? = some s ∧ ev.time = s.time) ∨
         (∃ depth, depthAtTime pi ev.time = some depth ∧ depth < X.SURFACE_THRESHOLD)) :
    isInteresting X d dc ev pi firstSecond lastSecond = some false ∧
    ∃ depth, depthAtTime pi ev.time = some depth := by
  refine ⟨?_, depthAtTime_returns pi ev.time⟩
  have hg : strcmp ev.name "gaschange" = 0 := (strcmp_eq_zero _ _).mpr hname
  have hcond : initialGaschange X dc ev pi = some true := by
    unfold initialGaschange
    simp only [hg, if_true]
    rcases h with h0 | ⟨s, hs, hst⟩ | ⟨depth, hd, hlt⟩
    · simp [h0]
    · by_cases h0 : ev.time = 0
      · simp [h0]
      · simp [h0, hs, hst]
    · by_cases h0 : ev.time = 0
      · simp [h0]
      · simp only [h0, if_false, hd]
        split
        · rfl
        · simp [hlt]
  unfold isInteresting
  by_cases hout : outsidePlotRange ev firstSecond lastSecond = true
  · simp [hout]
  · simp [hout, hcond]

/-- C3, on gas changes at time 0, at the first sample and at 500 mm. -/
theorem isInteresting_gaschange_witness :
    isInteresting sampleExternals () sampleComputer (mkGaschange "gaschange" 0 air)
      profileB 0 100 = some false ∧
    isInteresting sampleExternals () { duration := 100, sample := [{ time := 10 }] }
      (mkGaschange "gaschange" 10 air) profileB 0 100 = some false ∧
    isInteresting sampleExternals () sampleComputer (mkGaschange "gaschange" 10 air)
      { entry := [⟨0, 0⟩, ⟨10, 500⟩] } 0 100 = some false :=
  ⟨(isInteresting_gaschange sampleExternals () sampleComputer (mkGaschange "gaschange" 0 air)
      profileB 0 100 (by decide) (Or.inl (by decide))).1,
   (isInteresting_gaschange sampleExternals () { duration := 100, sample := [{ time := 10 }] }
      (mkGaschange "gaschange" 10 air) profileB 0 100 (by decide)
      (Or.inr (Or.inl ⟨{ time := 10 }, by decide, by decide⟩))).1,
   (isInteresting_gaschange sampleExternals () sampleComputer (mkGaschange "gaschange" 10 air)
      { entry := [⟨0, 0⟩, ⟨10, 500⟩] } 0 100 (by decide)
      (Or.inr (Or.inr ⟨500, by decide, by decide⟩))).1⟩

/-! ## C4: surface events and the interest filter -/

/-- C4: for an event named exactly "surface" at time `t` and a dive
computer of duration `D`, `isInteresting` returns false when `t ≤ 30` or
`t + 30 ≥ D`, both bounds included, and returns true for an event in the
plot window with `30 < t` and `t + 30 < D`; `D` and the sum `t + 30` are
values of `int`. -/
theorem isInteresting_surface {Dive : Type} (X : Externals Dive) (d : Dive)
    (dc : divecomputer) (ev : event) (pi : plot_info) (firstSecond lastSecond : Int)
    (hname : ev.name = "surface")
    (hD : IsInt32 dc.duration) (hsum : IsInt32 (ev.time + 30)) :
    ((ev.time ≤ 30 ∨ ev.time + 30 ≥ dc.duration) →
      isInteresting X d dc ev pi firstSecond lastSecond = some false) ∧
    (firstSecond ≤ ev.time → ev.time < lastSecond → 30 < ev.time →
      ev.time + 30 < dc.duration →
      isInteresting X d dc ev pi firstSecond lastSecond = some true) := by
  have hs : strcmp ev.name "surface" = 0 := (strcmp_eq_zero _ _).mpr hname
  have hg : initialGaschange X dc ev pi = some false :=
    initialGaschange_other X dc ev pi (by rw [hname]; decide)
  have hsurf : surfaceUninteresting dc ev = true ↔
      (ev.time ≤ 30 ∨ ev.time + 30 ≥ dc.duration) := by
    unfold surfaceUninteresting
    simp [wrap32_of_IsInt32 _ hD, wrap32_of_IsInt32 _ hsum]
  constructor
  · intro h
    unfold isInteresting
    by_cases hout : outsidePlotRange ev firstSecond lastSecond = true
    · simp [hout]
    · simp [hout, hg, hs, hsurf.mpr h]
  · intro h1 h2 h3 h4
    have hout : outsidePlotRange ev firstSecond lastSecond = false := by
      unfold outsidePlotRange
      simp; omega
    have hno : surfaceUninteresting dc ev = false := by
      rw [← Bool.not_eq_true, hsurf]; omega
    unfold isInteresting
    simp [hout, hg, hs, hno]

/-- C4, on a dive of 100 seconds: surface events at 30 and at 70 seconds
are dropped, one at 31 seconds is kept. -/
theorem isInteresting_surface_witness :
    isInteresting sampleExternals () sampleComputer (mkEvent "surface" 9 0 30)
      profileB 0 100 = some false ∧
    isInteresting sampleExternals () sampleComputer (mkEvent "surface" 9 0 70)
      profileB 0 100 = some false ∧
    isInteresting sampleExternals () sampleComputer (mkEvent "surface" 9 0 31)
      profileB 0 100 = some true :=
  ⟨(isInteresting_surface sampleExternals () sampleComputer (mkEvent "surface" 9 0 30)
      profileB 0 100 (by decide) (by decide) (by decide)).1 (Or.inl (by decide)),
   (isInteresting_surface sampleExternals () sampleComputer (mkEvent "surface" 9 0 70)
      profileB 0 100 (by decide) (by decide) (by decide)).1 (Or.inr (by decide)),
   (isInteresting_surface sampleExternals () sampleComputer (mkEvent "surface" 9 0 31)
      profileB 0 100 (by decide) (by decide) (by decide)).2
      (by decide) (by decide) (by decide) (by decide)⟩

/-! ## C5: the mode-change icon -/

/-- C5: for an event whose name equals "modechange" ignoring case,
whatever its type, flags, time and gas data, `setupPixmap` chooses the
bailout icon if the value is 0 and the CCR-loop icon for every other
value, and does not set the offset. -/
theorem setupPixmap_modechange {Dive : Type} (X : Externals Dive) (dive : Dive) (ev : event)
    (lastgasmix : gasmix) (pixmaps : DivePixmaps)
    (hname : same_string_caseinsensitive ev.name "modechange" = true) :
    setupPixmap X dive ev lastgasmix pixmaps =
      (if ev.value = 0 then Icon.bailout else Icon.onCCRLoop, none) := by
  have hne : empty_string ev.name = false :=
    not_empty_of_same_caseinsensitive ev.name "modechange" (by decide) hname
  unfold setupPixmap
  by_cases hv : ev.value = 0 <;> simp [hne, hname, hv]

/-- C5, on the event named "modechange" with value 0, here of a
gas-change type: the bailout icon. -/
theorem setupPixmap_modechange_witness :
    setupPixmap sampleExternals () (mkEvent "modechange" 11 0 300) air samplePixmaps =
      (Icon.bailout, none) :=
  setupPixmap_modechange sampleExternals () (mkEvent "modechange" 11 0 300) air samplePixmaps
    (by decide)

/-! ## C6: the mode-change tooltip -/

/-- C6, as stated, fails: an event named "modechange" with value 0, a valid
mode index, and a gas-change type gets the gas-change tooltip, not the
mode name. -/
theorem setupToolTipString_modechange_counterexample :
    (mkEvent "modechange" 11 0 300).name = "modechange" ∧
    divemodeText sampleExternals (mkEvent "modechange" 11 0 300).value = some "Open circuit" ∧
    setupToolTipString sampleExternals () (mkEvent "modechange" 11 0 300) air =
      some (toolTipImg ++ "modechange: air") ∧
    setupToolTipString sampleExternals () (mkEvent "modechange" 11 0 300) air ≠
      some (toolTipImg ++ ("modechange" ++ (": " ++ "Open circuit"))) := by
  decide

/-- C6, amended: for an event that is not a gas change, whose name is
"modechange" and whose value is a valid index of the mode table, the
tooltip is the fixed image text followed by the translated name, then
": ", then the translated mode name, and nothing else; for value 0 and
the identity translation it is "modechange: " followed by the first text
of the table. -/
theorem setupToolTipString_modechange {Dive : Type} (X : Externals Dive) (dive : Dive)
    (ev : event) (lastgasmix : gasmix) (mode : String)
    (hgas : X.event_is_gaschange ev = false)
    (hname : ev.name = "modechange")
    (hmode : divemodeText X ev.value = some mode) :
    setupToolTipString X dive ev lastgasmix =
      some (toolTipImg ++ (X.gettextFromC_tr ev.name ++ (": " ++ X.gettextFromC_tr mode))) ∧
    ((∀ s, X.gettextFromC_tr s = s) → ev.value = 0 →
      X.divemode_text_ui.head? = some mode ∧
      setupToolTipString X dive ev lastgasmix = some (toolTipImg ++ ("modechange: " ++ mode))) := by
  have hs : same_string ev.name "modechange" = true := (same_string_iff _ _).mpr hname
  have main : setupToolTipString X dive ev lastgasmix =
      some (toolTipImg ++ (X.gettextFromC_tr ev.name ++ (": " ++ X.gettextFromC_tr mode))) := by
    unfold setupToolTipString
    simp [hgas, hs, hmode]
  refine ⟨main, ?_⟩
  intro hid hv
  constructor
  · unfold divemodeText at hmode
    rw [hv] at hmode
    simpa [List.head?_eq_getElem?] using hmode
  · rw [main, hid, hid, hname, ← String.append_assoc "modechange" ": " mode]
    rfl

/-- C6, amended, on the bookmark-typed event named "modechange" with value
0 and the sample collaborators. -/
theorem setupToolTipString_modechange_witness :
    setupToolTipString sampleExternals () (mkEvent "modechange" 8 0 300) air =
      some (toolTipImg ++ ("modechange: " ++ "Open circuit")) :=
  ((setupToolTipString_modechange sampleExternals () (mkEvent "modechange" 8 0 300) air
      "Open circuit" (by decide) (by decide) (by decide)).2 (fun _ => rfl) (by decide)).2

/-! ## C7: the setpoint change with value 0 -/

/-- C7: for an event named "SP change" with value 0 and type
`SAMPLE_EVENT_PO2` (which is not a gas change), the tooltip is the image
text, the translated name, ":\n" and the translated "Manual switch to OC",
so it ends with that note, whatever the flags are: no begin or end text is
appended. -/
theorem setupToolTipString_sp_change {Dive : Type} (X : Externals Dive) (dive : Dive)
    (ev : event) (lastgasmix : gasmix)
    (hgas : X.event_is_gaschange ev = false)
    (hname : ev.name = "SP change")
    (hvalue : ev.value = 0)
    (htype : ev.type = X.SAMPLE_EVENT_PO2) :
    setupToolTipString X dive ev lastgasmix =
      some (toolTipImg ++ (X.gettextFromC_tr ev.name ++
        (":\n" ++ X.tr "Manual switch to OC" ""))) ∧
    ∃ before, setupToolTipString X dive ev lastgasmix =
      some (before ++ X.tr "Manual switch to OC" "") := by
  have hs : same_string ev.name "SP change" = true := (same_string_iff _ _).mpr hname
  have hm : same_string ev.name "modechange" = false := by
    rw [← Bool.not_eq_true, same_string_iff, hname]; decide
  have main : setupToolTipString X dive ev lastgasmix =
      some (toolTipImg ++ (X.gettextFromC_tr ev.name ++
        (":\n" ++ X.tr "Manual switch to OC" ""))) := by
    unfold setupToolTipString
    simp [hgas, hs, hm, hvalue, htype]
  refine ⟨main, toolTipImg ++ (X.gettextFromC_tr ev.name ++ ":\n"), ?_⟩
  rw [main, String.append_assoc, String.append_assoc]

/-- C7, on a pO₂-typed "SP change" with value 0 carrying both the begin and
the end flag. -/
theorem setupToolTipString_sp_change_witness :
    setupToolTipString sampleExternals ()
      { time := 300, type := 20, flags := 3, value := 0,
        gas := { index := -1, mix := air }, name := "SP change" } air =
      some (toolTipImg ++ "SP change:\nManual switch to OC") :=
  (setupToolTipString_sp_change sampleExternals ()
      { time := 300, type := 20, flags := 3, value := 0,
        gas := { index := -1, mix := air }, name := "SP change" } air
      (by decide) (by decide) (by decide) (by decide)).1

/-! ## C8: the plot window of the interest filter -/

/-- C8: whatever the event, the dive computer, the samples and the window,
`isInteresting` returns false when the event time is before `firstSecond`
or at or after `lastSecond`; an event exactly at `lastSecond` is dropped,
while the window test does not drop an event exactly at `firstSecond` of
a non-empty window, and such an event is kept when it has no special
name. -/
theorem isInteresting_window {Dive : Type} (X : Externals Dive) (d : Dive)
    (dc : divecomputer) (ev : event) (pi : plot_info) (firstSecond lastSecond : Int) :
    ((ev.time < firstSecond ∨ ev.time ≥ lastSecond) →
      isInteresting X d dc ev pi firstSecond lastSecond = some false) ∧
    (ev.time = lastSecond →
      isInteresting X d dc ev pi firstSecond lastSecond = some false) ∧
    (ev.time = firstSecond → firstSecond < lastSecond →
      outsidePlotRange ev firstSecond lastSecond = false) ∧
    (ev.time = firstSecond → firstSecond < lastSecond →
      ev.name ≠ "gaschange" → ev.name ≠ "surface" →
      isInteresting X d dc ev pi firstSecond lastSecond = some true) := by
  have drop : (ev.time < firstSecond ∨ ev.time ≥ lastSecond) →
      isInteresting X d dc ev pi firstSecond lastSecond = some false := by
    intro h
    have hout : outsidePlotRange ev firstSecond lastSecond = true := by
      unfold outsidePlotRange
      simpa using h
    unfold isInteresting
    simp [hout]
  have keep : ev.time = firstSecond → firstSecond < lastSecond →
      outsidePlotRange ev firstSecond lastSecond = false := by
    intro h1 h2
    unfold outsidePlotRange
    simp; omega
  refine ⟨drop, fun h => drop (Or.inr (ge_of_eq h)), keep, ?_⟩
  intro h1 h2 hg hs
  have hs' : strcmp ev.name "surface" ≠ 0 := fun h => hs ((strcmp_eq_zero _ _).mp h)
  unfold isInteresting
  simp [keep h1 h2, initialGaschange_other X dc ev pi hg, hs']

/-- C8, on the window from 10 to 100 seconds: a heading event at 100
seconds is dropped, one at 10 seconds is kept. -/
theorem isInteresting_window_witness :
    isInteresting sampleExternals () sampleComputer (mkEvent "heading" 23 0 100)
      profileB 10 100 = some false ∧
    isInteresting sampleExternals () sampleComputer (mkEvent "heading" 23 0 10)
      profileB 10 100 = some true :=
  ⟨(isInteresting_window sampleExternals () sampleComputer (mkEvent "heading" 23 0 100)
      profileB 10 100).2.1 (by decide),
   (isInteresting_window sampleExternals () sampleComputer (mkEvent "heading" 23 0 10)
      profileB 10 100).2.2.2 (by decide) (by decide) (by decide) (by decide)⟩

/-! ## C9: placement -/

/-- C9: the constructor caches `depthAtTime(pi, ev->time)` as the depth of
the item.  On every `recalculatePos`, under any hidden set, an item whose
depth is the sentinel is made invisible and keeps its position; any other
item gets the visibility `!is_event_hidden(name, flags)` and the position
`(hAxis.posAtValue(time), vAxis.posAtValue(depth))`; the cached depth is
never changed.  Hence, for sorted samples, an event whose time matches no
sample is built hidden, at the position of the base item, and stays so
under every later `recalculatePos`. -/
theorem placement {Dive Coord : Type} (X : Externals Dive) (ev : event) :
    (∀ (item : DiveEventItem Dive Coord), item.ev = some ev →
      (item.depth = DEPTH_NOT_FOUND → recalculatePos X item = { item with visible := false }) ∧
      (item.depth ≠ DEPTH_NOT_FOUND → recalculatePos X item =
        { item with
          visible := !X.is_event_hidden ev.name ev.flags
          pos := (item.hAxis.posAtValue ev.time, item.vAxis.posAtValue item.depth) }) ∧
      (recalculatePos X item).depth = item.depth ∧
      (recalculatePos X item).ev = item.ev) ∧
    (∀ (base : DivePixmapItem Coord) (d : Dive) (lastgasmix : gasmix) (pi : plot_info)
       (hAxis vAxis : DiveCartesianAxis Coord) (pixmaps : DivePixmaps) (tip : String),
      setupToolTipString X d ev lastgasmix = some tip →
      ∃ item depth, DiveEventItem.ctor X base d ev lastgasmix pi hAxis vAxis pixmaps = some item ∧
        depthAtTime pi ev.time = some depth ∧ item.depth = depth ∧ item.ev = some ev ∧
        item.hAxis = hAxis ∧ item.vAxis = vAxis ∧
        (depth = DEPTH_NOT_FOUND → item.visible = false ∧ item.pos = base.pos) ∧
        (depth ≠ DEPTH_NOT_FOUND →
          item.visible = (!X.is_event_hidden ev.name ev.flags) ∧
          item.pos = (hAxis.posAtValue ev.time, vAxis.posAtValue depth)) ∧
        (SortedByTime pi → (∀ s ∈ pi.entry, s.sec ≠ ev.time) →
          item.visible = false ∧ item.pos = base.pos ∧
          ∀ (X' : Externals Dive), recalculatePos X' item = item)) := by
  constructor
  · intro item hev
    refine ⟨?_, ?_, ?_, ?_⟩
    · intro hd
      unfold recalculatePos
      simp [hev, hd]
    · intro hd
      unfold recalculatePos shouldBeHidden
      simp [hev, hd]
    · unfold recalculatePos
      rw [hev]
      by_cases hd : item.depth = DEPTH_NOT_FOUND <;> simp [hd]
    · unfold recalculatePos
      rw [hev]
      by_cases hd : item.depth = DEPTH_NOT_FOUND <;> simp [hd, hev]
  · intro base d lastgasmix pi hAxis vAxis pixmaps tip htip
    obtain ⟨depth, hdepth⟩ := depthAtTime_returns pi ev.time
    have hctor : DiveEventItem.ctor X base d ev lastgasmix pi hAxis vAxis pixmaps =
        some (recalculatePos X
          { pixmap := some (setupPixmap X d ev lastgasmix pixmaps).1
            offset := (setupPixmap X d ev lastgasmix pixmaps).2.getD base.offset
            toolTip := tip
            visible := base.visible
            pos := base.pos
            vAxis := vAxis
            hAxis := hAxis
            ev := some ev
            dive := d
            depth := depth }) := by
      unfold DiveEventItem.ctor
      simp [hdepth, htip]
    refine ⟨_, depth, hctor, hdepth, ?_⟩
    by_cases hd : depth = DEPTH_NOT_FOUND
    · have hrec : ∀ (X' : Externals Dive) (vis : Bool), recalculatePos X'
          ({ pixmap := some (setupPixmap X d ev lastgasmix pixmaps).1
             offset := (setupPixmap X d ev lastgasmix pixmaps).2.getD base.offset
             toolTip := tip
             visible := vis
             pos := base.pos
             vAxis := vAxis
             hAxis := hAxis
             ev := some ev
             dive := d
             depth := depth } : DiveEventItem Dive Coord) =
          { pixmap := some (setupPixmap X d ev lastgasmix pixmaps).1
            offset := (setupPixmap X d ev lastgasmix pixmaps).2.getD base.offset
            toolTip := tip
            visible := false
            pos := base.pos
            vAxis := vAxis
            hAxis := hAxis
            ev := some ev
            dive := d
            depth := depth } := by
        intro X' vis
        unfold recalculatePos
        simp [hd]
      rw [hrec X base.visible]
      refine ⟨rfl, rfl, rfl, rfl, fun _ => ⟨rfl, rfl⟩, fun h => absurd hd h, ?_⟩
      intro _ _
      exact ⟨rfl, rfl, fun X' => hrec X' false⟩
    · have hrec : recalculatePos X
          ({ pixmap := some (setupPixmap X d ev lastgasmix pixmaps).1
             offset := (setupPixmap X d ev lastgasmix pixmaps).2.getD base.offset
             toolTip := tip
             visible := base.visible
             pos := base.pos
             vAxis := vAxis
             hAxis := hAxis
             ev := some ev
             dive := d
             depth := depth } : DiveEventItem Dive Coord) =
          { pixmap := some (setupPixmap X d ev lastgasmix pixmaps).1
            offset := (setupPixmap X d ev lastgasmix pixmaps).2.getD base.offset
            toolTip := tip
            visible := !X.is_event_hidden ev.name ev.flags
            pos := (hAxis.posAtValue ev.time, vAxis.posAtValue depth)
            vAxis := vAxis
            hAxis := hAxis
            ev := some ev
            dive := d
            depth := depth } := by
        unfold recalculatePos shouldBeHidden
        simp [hd]
      rw [hrec]
      refine ⟨rfl, rfl, rfl, rfl, fun h => absurd h hd, fun _ => ⟨rfl, rfl⟩, ?_⟩
      intro _ hnone
      exfalso
      have := depthAtTime_of_absent pi ev.time hnone
      rw [hdepth] at this
      exact hd (Option.some.inj this)

/-- C9, on the samples at 0, 10 and 20 seconds: a heading event at 15
seconds is built hidden at the position of the base item, one at 10
seconds is built visible at `(10, 750)`. -/
theorem placement_witness :
    (∃ item, DiveEventItem.ctor sampleExternals freshBase () (mkEvent "heading" 23 0 15) air
        profileB identityAxis identityAxis samplePixmaps = some item ∧
      item.visible = false ∧ item.pos = (0, 0)) ∧
    (∃ item, DiveEventItem.ctor sampleExternals freshBase () (mkEvent "heading" 23 0 10) air
        profileB identityAxis identityAxis samplePixmaps = some item ∧
      item.visible = true ∧ item.pos = (10, 750)) := by
  constructor
  · obtain ⟨item, depth, hc, _, _, _, _, _, _, _, hs⟩ :=
      (placement sampleExternals (mkEvent "heading" 23 0 15)).2 freshBase () air profileB
        identityAxis identityAxis samplePixmaps (toolTipImg ++ "heading") (by decide)
    have h := hs (by unfold SortedByTime profileB; decide) (by decide)
    exact ⟨item, hc, h.1, h.2.1⟩
  · obtain ⟨item, depth, hc, hd, hdep, _, _, _, _, hv, _⟩ :=
      (placement sampleExternals (mkEvent "heading" 23 0 10)).2 freshBase () air profileB
        identityAxis identityAxis samplePixmaps (toolTipImg ++ "heading") (by decide)
    have hd' : depth = 750 := by
      have : depthAtTime profileB (mkEvent "heading" 23 0 10).time = some 750 := by decide
      rw [this] at hd
      exact (Option.some.inj hd).symm
    subst hd'
    have h := hv (by decide)
    exact ⟨item, hc, h.1, h.2⟩

/-! ## C10: the boundary of the shallow threshold -/

/-- C10, as stated, fails: a "gaschange" event in the window whose depth is
exactly `SURFACE_THRESHOLD` (750 here), away from time 0 and from the
first sample, is kept by the interest filter. -/
theorem isInteresting_threshold_counterexample :
    (mkGaschange "gaschange" 10 air).name = "gaschange" ∧
    depthAtTime profileB (mkGaschange "gaschange" 10 air).time = some 750 ∧
    (750 : Int) ≤ sampleExternals.SURFACE_THRESHOLD ∧
    isInteresting sampleExternals () sampleComputer (mkGaschange "gaschange" 10 air)
      profileB 0 100 = some true := by
  decide

/-- C10, amended: a "gaschange" event in the window whose looked-up depth
is strictly less than `SURFACE_THRESHOLD` is dropped by the interest
filter; at a depth equal to or greater than the threshold it is kept,
unless its time is 0 or the time of the first sample. -/
theorem isInteresting_threshold {Dive : Type} (X : Externals Dive) (d : Dive)
    (dc : divecomputer) (ev : event) (pi : plot_info) (firstSecond lastSecond depth : Int)
    (hname : ev.name = "gaschange")
    (hfirst : firstSecond ≤ ev.time) (hlast : ev.time < lastSecond)
    (hdepth : depthAtTime pi ev.time = some depth) :
    (depth < X.SURFACE_THRESHOLD →
      isInteresting X d dc ev pi firstSecond lastSecond = some false) ∧
    (depth ≥ X.SURFACE_THRESHOLD → ev.time ≠ 0 →
      (∀ s, dc.sample.head? = some s → ev.time ≠ s.time) →
      isInteresting X d dc ev pi firstSecond lastSecond = some true) := by
  have hg : strcmp ev.name "gaschange" = 0 := (strcmp_eq_zero _ _).mpr hname
  have hs : strcmp ev.name "surface" ≠ 0 := by
    rw [Ne, strcmp_eq_zero, hname]; decide
  have hout : outsidePlotRange ev firstSecond lastSecond = false := by
    unfold outsidePlotRange
    simp; omega
  constructor
  · intro hlt
    have hcond : initialGaschange X dc ev pi = some true := by
      unfold initialGaschange
      simp only [hg, if_true, hdepth]
      by_cases h0 : ev.time = 0
      · simp [h0]
      · simp only [h0, if_false]
        split
        · rfl
        · simp [hlt]
    unfold isInteresting
    simp [hout, hcond]
  · intro hge h0 hfs
    have hcond : initialGaschange X dc ev pi = some false := by
      unfold initialGaschange
      simp only [hg, if_true, hdepth, h0, if_false]
      cases hh : dc.sample.head? with
      | none => simp [not_lt.mpr hge]
      | some s => simp [not_lt.mpr hge, hfs s hh]
    unfold isInteresting
    simp [hout, hcond, hs]

/-- C10, amended, on samples at 749 mm and at 750 mm: the first gas change
is dropped, the second is kept. -/
theorem isInteresting_threshold_witness :
    isInteresting sampleExternals () sampleComputer (mkGaschange "gaschange" 10 air)
      { entry := [⟨0, 0⟩, ⟨10, 749⟩] } 0 100 = some false ∧
    isInteresting sampleExternals () sampleComputer (mkGaschange "gaschange" 10 air)
      { entry := [⟨0, 0⟩, ⟨10, 750⟩] } 0 100 = some true :=
  ⟨(isInteresting_threshold sampleExternals () sampleComputer (mkGaschange "gaschange" 10 air)
      { entry := [⟨0, 0⟩, ⟨10, 749⟩] } 0 100 749 (by decide) (by decide) (by decide)
      (by decide)).1 (by decide),
   (isInteresting_threshold sampleExternals () sampleComputer (mkGaschange "gaschange" 10 air)
      { entry := [⟨0, 0⟩, ⟨10, 750⟩] } 0 100 750 (by decide) (by decide) (by decide)
      (by decide)).2 (by decide) (by decide) (by decide)⟩

/-! ## Auxiliary facts about the classifier -/

/-- Past the first four rules, `setupPixmap` is decided by the placeholder
test, then by the severity branches, then by the name. -/
theorem setupPixmap_late_rules {Dive : Type} (X : Externals Dive) (dive : Dive) (ev : event)
    (lastgasmix : gasmix) (pixmaps : DivePixmaps)
    (hname : empty_string ev.name = false)
    (hmode : same_string_caseinsensitive ev.name "modechange" = false)
    (hbook : ev.type ≠ X.SAMPLE_EVENT_BOOKMARK)
    (hgas : X.event_is_gaschange ev = false) :
    setupPixmap X dive ev lastgasmix pixmaps =
      if isPlaceholder X ev then (Icon.transparent, none)
      else match severityIcon X ev with
        | some icon => (icon, none)
        | none =>
          if nameAmong ev.name violationNames then (Icon.violation, none)
          else if nameAmong ev.name infoNames then (Icon.info, none)
          else (Icon.warning, none) := by
  unfold setupPixmap
  simp only [hname, hmode, hbook, hgas, if_false, Bool.false_eq_true]
  simp [nameAmong, violationNames, infoNames, List.any, Bool.or_assoc]

/-- A severity branch chooses the info, the warning or the violation
icon. -/
theorem severityIcon_mem {Dive : Type} (X : Externals Dive) (ev : event) (icon : Icon)
    (h : severityIcon X ev = some icon) :
    icon = Icon.info ∨ icon = Icon.warning ∨ icon = Icon.violation := by
  unfold severityIcon at h
  cases hs : X.severity with
  | none => simp [hs] at h
  | some ms =>
    simp only [hs] at h
    split_ifs at h <;> simp_all

/-! ## C11: the empty name -/

/-- C11: for an event whose name is empty, `setupPixmap` chooses the warning
icon and does not set the offset, whatever the type (bookmark and gas
change included), the value, the flags and the time. -/
theorem setupPixmap_empty_name {Dive : Type} (X : Externals Dive) (dive : Dive) (ev : event)
    (lastgasmix : gasmix) (pixmaps : DivePixmaps)
    (hname : empty_string ev.name = true) :
    setupPixmap X dive ev lastgasmix pixmaps = (Icon.warning, none) := by
  unfold setupPixmap
  simp [hname]

/-- C11, on nameless events of bookmark type and of gas-change type with
severity 4. -/
theorem setupPixmap_empty_name_witness :
    setupPixmap sampleExternals () (mkFlagged "" 8 16 0 300) air samplePixmaps =
      (Icon.warning, none) ∧
    setupPixmap sampleExternals () (mkFlagged "" 11 16 1 0) air samplePixmaps =
      (Icon.warning, none) :=
  ⟨setupPixmap_empty_name sampleExternals () (mkFlagged "" 8 16 0 300) air samplePixmaps
      (by decide),
   setupPixmap_empty_name sampleExternals () (mkFlagged "" 11 16 1 0) air samplePixmaps
      (by decide)⟩

/-! ## C12: the placeholder icon -/

/-- C12: for an event not matched by the first four rules, the icon is the
transparent placeholder if and only if the severity field of the flags is
1 (when the severity macros exist), or the name is "heading" ignoring case,
or the name is "SP change" ignoring case and the time is 0; so a "heading"
event keeps the transparent icon whatever its severity, and an "SP change"
event at a non-zero time with a severity other than 1 does not get it. -/
theorem setupPixmap_placeholder {Dive : Type} (X : Externals Dive) (dive : Dive) (ev : event)
    (lastgasmix : gasmix) (pixmaps : DivePixmaps)
    (hname : empty_string ev.name = false)
    (hmode : same_string_caseinsensitive ev.name "modechange" = false)
    (hbook : ev.type ≠ X.SAMPLE_EVENT_BOOKMARK)
    (hgas : X.event_is_gaschange ev = false) :
    ((setupPixmap X dive ev lastgasmix pixmaps).1 = Icon.transparent ↔
      ((∃ ms, X.severity = some ms ∧ severityOf ms ev.flags = 1) ∨
       same_string_caseinsensitive ev.name "heading" = true ∨
       (same_string_caseinsensitive ev.name "SP change" = true ∧ ev.time = 0))) ∧
    (same_string_caseinsensitive ev.name "heading" = true →
      (setupPixmap X dive ev lastgasmix pixmaps).1 = Icon.transparent) ∧
    (same_string_caseinsensitive ev.name "SP change" = true → ev.time ≠ 0 →
      (∀ ms, X.severity = some ms → severityOf ms ev.flags ≠ 1) →
      (setupPixmap X dive ev lastgasmix pixmaps).1 ≠ Icon.transparent) := by
  have hrule := setupPixmap_late_rules X dive ev lastgasmix pixmaps hname hmode hbook hgas
  have hplace : isPlaceholder X ev = true ↔
      ((∃ ms, X.severity = some ms ∧ severityOf ms ev.flags = 1) ∨
       same_string_caseinsensitive ev.name "heading" = true ∨
       (same_string_caseinsensitive ev.name "SP change" = true ∧ ev.time = 0)) := by
    unfold isPlaceholder
    cases hs : X.severity with
    | none => simp
    | some ms => simp [or_assoc]
  have hicon : (setupPixmap X dive ev lastgasmix pixmaps).1 = Icon.transparent ↔
      isPlaceholder X ev = true := by
    rw [hrule]
    by_cases hp : isPlaceholder X ev = true
    · simp [hp]
    · simp only [hp, if_false, iff_false]
      cases hsev : severityIcon X ev with
      | some icon =>
        rcases severityIcon_mem X ev icon hsev with h | h | h <;> simp [h]
      | none =>
        by_cases hv : nameAmong ev.name violationNames = true
        · simp [hv]
        · by_cases hi : nameAmong ev.name infoNames = true <;> simp [hv, hi]
  refine ⟨hicon.trans hplace, ?_, ?_⟩
  · intro hh
    exact hicon.mpr (hplace.mpr (Or.inr (Or.inl hh)))
  · intro hsp ht hsev hcontra
    rcases hplace.mp (hicon.mp hcontra) with ⟨ms, h1, h2⟩ | hh | ⟨_, h0⟩
    · exact hsev ms h1 h2
    · unfold same_string_caseinsensitive at hsp hh
      rw [beq_iff_eq] at hsp hh
      rw [hsp] at hh
      exact absurd hh (by decide)
    · exact ht h0

/-- C12, with the sample collaborators: a "Heading" event of severity 4
and an event of severity 1 get the transparent icon, an "SP change" at 60
seconds does not. -/
theorem setupPixmap_placeholder_witness :
    (setupPixmap sampleExternals () (mkFlagged "Heading" 23 16 90 60) air samplePixmaps).1 =
      Icon.transparent ∧
    (setupPixmap sampleExternals () (mkFlagged "deco stop" 1 4 0 60) air samplePixmaps).1 =
      Icon.transparent ∧
    (setupPixmap sampleExternals () (mkFlagged "SP change" 20 0 1300 60) air samplePixmaps).1 ≠
      Icon.transparent :=
  ⟨(setupPixmap_placeholder sampleExternals () (mkFlagged "Heading" 23 16 90 60) air
      samplePixmaps (by decide) (by decide) (by decide) (by decide)).2.1 (by decide),
   (setupPixmap_placeholder sampleExternals () (mkFlagged "deco stop" 1 4 0 60) air
      samplePixmaps (by decide) (by decide) (by decide) (by decide)).1.mpr
      (Or.inl ⟨(28, 2), rfl, by decide⟩),
   (setupPixmap_placeholder sampleExternals () (mkFlagged "SP change" 20 0 1300 60) air
      samplePixmaps (by decide) (by decide) (by decide) (by decide)).2.2 (by decide)
      (by decide) (fun ms h => by cases h; decide)⟩

/-! ## C13: the severity icons -/

/-- C13: with the severity macros present, for an event not matched by the
first five rules, a severity of 2 gives the info icon, 3 the warning icon
and 4 the violation icon, whatever the name, and the offset is not set. -/
theorem setupPixmap_severity {Dive : Type} (X : Externals Dive) (dive : Dive) (ev : event)
    (lastgasmix : gasmix) (pixmaps : DivePixmaps) (ms : Int × Nat)
    (hsupport : X.severity = some ms)
    (hname : empty_string ev.name = false)
    (hmode : same_string_caseinsensitive ev.name "modechange" = false)
    (hbook : ev.type ≠ X.SAMPLE_EVENT_BOOKMARK)
    (hgas : X.event_is_gaschange ev = false)
    (hplace : isPlaceholder X ev = false) :
    (severityOf ms ev.flags = 2 →
      setupPixmap X dive ev lastgasmix pixmaps = (Icon.info, none)) ∧
    (severityOf ms ev.flags = 3 →
      setupPixmap X dive ev lastgasmix pixmaps = (Icon.warning, none)) ∧
    (severityOf ms ev.flags = 4 →
      setupPixmap X dive ev lastgasmix pixmaps = (Icon.violation, none)) := by
  rw [setupPixmap_late_rules X dive ev lastgasmix pixmaps hname hmode hbook hgas]
  simp only [hplace, if_false, Bool.false_eq_true]
  refine ⟨?_, ?_, ?_⟩ <;> intro h <;> simp [severityIcon, hsupport, h]

/-- C13, with the sample collaborators: an event named "violation" of
severity 2 gets the info icon, and severities 3 and 4 give the warning and
the violation icon to an event named "Marker". -/
theorem setupPixmap_severity_witness :
    setupPixmap sampleExternals () (mkFlagged "violation" 7 8 0 60) air samplePixmaps =
      (Icon.info, none) ∧
    setupPixmap sampleExternals () (mkFlagged "Marker" 0 12 0 60) air samplePixmaps =
      (Icon.warning, none) ∧
    setupPixmap sampleExternals () (mkFlagged "Marker" 0 16 0 60) air samplePixmaps =
      (Icon.violation, none) :=
  ⟨(setupPixmap_severity sampleExternals () (mkFlagged "violation" 7 8 0 60) air samplePixmaps
      (28, 2) rfl (by decide) (by decide) (by decide) (by decide) (by decide)).1 (by decide),
   (setupPixmap_severity sampleExternals () (mkFlagged "Marker" 0 12 0 60) air samplePixmaps
      (28, 2) rfl (by decide) (by decide) (by decide) (by decide) (by decide)).2.1 (by decide),
   (setupPixmap_severity sampleExternals () (mkFlagged "Marker" 0 16 0 60) air samplePixmaps
      (28, 2) rfl (by decide) (by decide) (by decide) (by decide) (by decide)).2.2 (by decide)⟩

/-! ## C14: the icons chosen by name, and the default -/

/-- C14: for an event not matched by the first six rules (with the severity
macros present, its severity is none of 1, 2, 3, 4), the icon is the
violation icon if the name equals, ignoring case, one of the seven
violation names, otherwise the info icon if it equals one of the five info
names, and otherwise the warning icon.  The classifier is total: it gives
every event exactly one icon. -/
theorem setupPixmap_by_name {Dive : Type} (X : Externals Dive) (dive : Dive) (ev : event)
    (lastgasmix : gasmix) (pixmaps : DivePixmaps)
    (hname : empty_string ev.name = false)
    (hmode : same_string_caseinsensitive ev.name "modechange" = false)
    (hbook : ev.type ≠ X.SAMPLE_EVENT_BOOKMARK)
    (hgas : X.event_is_gaschange ev = false)
    (hplace : isPlaceholder X ev = false)
    (hsev : ∀ ms, X.severity = some ms →
      severityOf ms ev.flags ≠ 2 ∧ severityOf ms ev.flags ≠ 3 ∧ severityOf ms ev.flags ≠ 4) :
    (setupPixmap X dive ev lastgasmix pixmaps).1 =
      (if nameAmong ev.name
            ["violation", "Safety stop violation", "pO₂ ascend alarm", "RGT alert",
             "Dive time alert", "Low battery alert", "Speed alarm"] then Icon.violation
       else if nameAmong ev.name
            ["non stop time", "safety stop", "safety stop (voluntary)",
             "Tank change suggested", "Marker"] then Icon.info
       else Icon.warning) ∧
    (∀ ms, X.severity = some ms → severityOf ms ev.flags ≠ 1) ∧
    (∀ (X' : Externals Dive) (ev' : event),
      ∃! icon, (setupPixmap X' dive ev' lastgasmix pixmaps).1 = icon) := by
  have hnone : severityIcon X ev = none := by
    unfold severityIcon
    cases hs : X.severity with
    | none => rfl
    | some ms =>
      obtain ⟨h2, h3, h4⟩ := hsev ms hs
      simp [h2, h3, h4]
  refine ⟨?_, ?_, ?_⟩
  · rw [setupPixmap_late_rules X dive ev lastgasmix pixmaps hname hmode hbook hgas]
    simp only [hplace, if_false, Bool.false_eq_true, hnone]
    change (if nameAmong ev.name violationNames = true then (Icon.violation, none)
        else if nameAmong ev.name infoNames = true then (Icon.info, none)
        else (Icon.warning, (none : Option (Int × Int)))).1 =
      if nameAmong ev.name violationNames = true then Icon.violation
      else if nameAmong ev.name infoNames = true then Icon.info else Icon.warning
    by_cases hv : nameAmong ev.name violationNames = true
    · simp [hv]
    · by_cases hi : nameAmong ev.name infoNames = true <;> simp [hv, hi]
  · intro ms hs h1
    unfold isPlaceholder at hplace
    simp [hs, h1] at hplace
  · intro X' ev'
    exact ⟨_, rfl, fun y hy => hy.symm⟩

/-- C14, with the sample collaborators: "SPEED ALARM" of severity 5 gets
the violation icon, "Safety Stop" the info icon, "deco stop" the warning
icon. -/
theorem setupPixmap_by_name_witness :
    (setupPixmap sampleExternals () (mkFlagged "SPEED ALARM" 0 20 0 60) air samplePixmaps).1 =
      Icon.violation ∧
    (setupPixmap sampleExternals () (mkFlagged "Safety Stop" 10 0 0 60) air samplePixmaps).1 =
      Icon.info ∧
    (setupPixmap sampleExternals () (mkFlagged "deco stop" 1 0 0 60) air samplePixmaps).1 =
      Icon.warning :=
  ⟨(setupPixmap_by_name sampleExternals () (mkFlagged "SPEED ALARM" 0 20 0 60) air
      samplePixmaps (by decide) (by decide) (by decide) (by decide) (by decide)
      (fun ms h => by cases h; decide)).1,
   (setupPixmap_by_name sampleExternals () (mkFlagged "Safety Stop" 10 0 0 60) air
      samplePixmaps (by decide) (by decide) (by decide) (by decide) (by decide)
      (fun ms h => by cases h; decide)).1,
   (setupPixmap_by_name sampleExternals () (mkFlagged "deco stop" 1 0 0 60) air
      samplePixmaps (by decide) (by decide) (by decide) (by decide) (by decide)
      (fun ms h => by cases h; decide)).1⟩

/-! ## C15: the bookmark icon -/

/-- C15: for an event with a non-empty name other than "modechange"
ignoring case whose type is the bookmark type, `setupPixmap` chooses the
bookmark icon and sets the offset to `(0, -h)`, `h` the height of the
bookmark pixmap, whatever the name, the flags and the severity; in every
other case the offset is not set. -/
theorem setupPixmap_bookmark {Dive : Type} (X : Externals Dive) (dive : Dive) (ev : event)
    (lastgasmix : gasmix) (pixmaps : DivePixmaps) :
    (empty_string ev.name = false → same_string_caseinsensitive ev.name "modechange" = false →
      ev.type = X.SAMPLE_EVENT_BOOKMARK →
      setupPixmap X dive ev lastgasmix pixmaps =
        (Icon.bookmark, some (0, -(pixmaps.height Icon.bookmark)))) ∧
    (¬ (empty_string ev.name = false ∧ same_string_caseinsensitive ev.name "modechange" = false ∧
        ev.type = X.SAMPLE_EVENT_BOOKMARK) →
      (setupPixmap X dive ev lastgasmix pixmaps).2 = none) := by
  constructor
  · intro hname hmode hbook
    unfold setupPixmap
    simp [hname, hmode, hbook]
  · intro hnot
    by_cases hname : empty_string ev.name = true
    · unfold setupPixmap
      simp [hname]
    · by_cases hmode : same_string_caseinsensitive ev.name "modechange" = true
      · unfold setupPixmap
        by_cases hv : ev.value = 0 <;> simp [hname, hmode, hv]
      · have hname' : empty_string ev.name = false := by simpa using hname
        have hmode' : same_string_caseinsensitive ev.name "modechange" = false := by
          simpa using hmode
        have hbook : ev.type ≠ X.SAMPLE_EVENT_BOOKMARK := fun h => hnot ⟨hname', hmode', h⟩
        by_cases hgas : X.event_is_gaschange ev = true
        · unfold setupPixmap
          simp [hname', hmode', hbook, hgas]
        · have hgas' : X.event_is_gaschange ev = false := by simpa using hgas
          rw [setupPixmap_late_rules X dive ev lastgasmix pixmaps hname' hmode' hbook hgas']
          by_cases hp : isPlaceholder X ev = true
          · simp [hp]
          · simp only [hp, if_false]
            cases severityIcon X ev with
            | some icon => rfl
            | none =>
              by_cases hv : nameAmong ev.name violationNames = true
              · simp [hv]
              · by_cases hi : nameAmong ev.name infoNames = true <;> simp [hv, hi]

/-- C15, with pixmaps 16 pixels high: a bookmark-typed "heading" event of
severity 1 gets the bookmark icon and the offset `(0, -16)`; a gas change
gets no offset. -/
theorem setupPixmap_bookmark_witness :
    setupPixmap sampleExternals () (mkFlagged "heading" 8 4 0 60) air samplePixmaps =
      (Icon.bookmark, some (0, -16)) ∧
    (setupPixmap sampleExternals () (mkGaschange "gaschange" 60 air) air samplePixmaps).2 =
      none :=
  ⟨(setupPixmap_bookmark sampleExternals () (mkFlagged "heading" 8 4 0 60) air
      samplePixmaps).1 (by decide) (by decide) (by decide),
   (setupPixmap_bookmark sampleExternals () (mkGaschange "gaschange" 60 air) air
      samplePixmaps).2 (by decide)⟩

/-! ## C16: the begin and end texts of the tooltip -/

/-- C16: for an event that is not a gas change, is not named "modechange",
has value 0 and is not a "SP change" of type pO₂, the tooltip is the image
text and the translated name followed by the translated " begin" if the
begin bit of the flags is set, else by the translated " end" if the end
bit is set, else by nothing; with both bits set it is " begin".  For a
non-zero value the tooltip is that of the gas-change, mode or value
branch, which does not look at the two bits. -/
theorem setupToolTipString_begin_end {Dive : Type} (X : Externals Dive) (dive : Dive)
    (ev : event) (lastgasmix : gasmix) :
    (X.event_is_gaschange ev = false → ev.name ≠ "modechange" → ev.value = 0 →
      ¬ (ev.type = X.SAMPLE_EVENT_PO2 ∧ ev.name = "SP change") →
      setupToolTipString X dive ev lastgasmix =
        some (toolTipImg ++ (X.gettextFromC_tr ev.name ++
          (if Int.land ev.flags X.SAMPLE_FLAGS_BEGIN ≠ 0 then X.tr " begin" "Starts with space!"
           else if Int.land ev.flags X.SAMPLE_FLAGS_END ≠ 0 then X.tr " end" "Starts with space!"
           else ""))) ∧
      (Int.land ev.flags X.SAMPLE_FLAGS_BEGIN ≠ 0 → Int.land ev.flags X.SAMPLE_FLAGS_END ≠ 0 →
        setupToolTipString X dive ev lastgasmix =
          some (toolTipImg ++ (X.gettextFromC_tr ev.name ++
            X.tr " begin" "Starts with space!")))) ∧
    (ev.value ≠ 0 →
      setupToolTipString X dive ev lastgasmix =
        if X.event_is_gaschange ev = true then
          some (toolTipImg ++ (X.gettextFromC_tr ev.name ++ gaschangeText X dive ev lastgasmix))
        else if ev.name = "modechange" then
          (divemodeText X ev.value).map (fun mode =>
            toolTipImg ++ (X.gettextFromC_tr ev.name ++ (": " ++ X.gettextFromC_tr mode)))
        else
          some (toolTipImg ++ (X.gettextFromC_tr ev.name ++ valueText X ev))) := by
  constructor
  · intro hgas hname hvalue hsp
    have hm : same_string ev.name "modechange" = false := by
      rw [← Bool.not_eq_true, same_string_iff]; exact hname
    have hsp' : (decide (ev.type = X.SAMPLE_EVENT_PO2) && same_string ev.name "SP change") =
        false := by
      rw [← Bool.not_eq_true, Bool.and_eq_true, decide_eq_true_iff, same_string_iff]
      exact hsp
    have main : setupToolTipString X dive ev lastgasmix =
        some (toolTipImg ++ (X.gettextFromC_tr ev.name ++
          (if Int.land ev.flags X.SAMPLE_FLAGS_BEGIN ≠ 0 then X.tr " begin" "Starts with space!"
           else if Int.land ev.flags X.SAMPLE_FLAGS_END ≠ 0 then X.tr " end" "Starts with space!"
           else ""))) := by
      unfold setupToolTipString
      simp only [hgas, hm, hvalue, hsp', if_false, Bool.false_eq_true, ne_eq, not_true_eq_false]
    refine ⟨main, ?_⟩
    intro hb _
    rw [main, if_pos hb]
  · intro hvalue
    unfold setupToolTipString
    by_cases hgas : X.event_is_gaschange ev = true
    · simp [hgas]
    · by_cases hname : ev.name = "modechange"
      · have hm : same_string ev.name "modechange" = true := (same_string_iff _ _).mpr hname
        simp only [hgas, hm, if_true, if_false, hname]
        cases divemodeText X ev.value <;> rfl
      · have hm : same_string ev.name "modechange" = false := by
          rw [← Bool.not_eq_true, same_string_iff]; exact hname
        simp [hgas, hm, hname, hvalue]

/-- C16, with the sample collaborators: the flags 1, 2, 3 and 0 give
" begin", " end", " begin" and no text; with value 5 and both bits set the
text is ": 5". -/
theorem setupToolTipString_begin_end_witness :
    setupToolTipString sampleExternals () (mkFlagged "deco stop" 1 1 0 60) air =
      some (toolTipImg ++ "deco stop begin") ∧
    setupToolTipString sampleExternals () (mkFlagged "deco stop" 1 2 0 60) air =
      some (toolTipImg ++ "deco stop end") ∧
    setupToolTipString sampleExternals () (mkFlagged "deco stop" 1 3 0 60) air =
      some (toolTipImg ++ "deco stop begin") ∧
    setupToolTipString sampleExternals () (mkFlagged "deco stop" 1 0 0 60) air =
      some (toolTipImg ++ "deco stop") ∧
    setupToolTipString sampleExternals () (mkFlagged "deco stop" 1 3 5 60) air =
      some (toolTipImg ++ "deco stop: 5") :=
  ⟨((setupToolTipString_begin_end sampleExternals () (mkFlagged "deco stop" 1 1 0 60) air).1
      (by decide) (by decide) (by decide) (by decide)).1,
   ((setupToolTipString_begin_end sampleExternals () (mkFlagged "deco stop" 1 2 0 60) air).1
      (by decide) (by decide) (by decide) (by decide)).1,
   ((setupToolTipString_begin_end sampleExternals () (mkFlagged "deco stop" 1 3 0 60) air).1
      (by decide) (by decide) (by decide) (by decide)).2 (by decide) (by decide),
   ((setupToolTipString_begin_end sampleExternals () (mkFlagged "deco stop" 1 0 0 60) air).1
      (by decide) (by decide) (by decide) (by decide)).1,
   (setupToolTipString_begin_end sampleExternals () (mkFlagged "deco stop" 1 3 5 60) air).2
      (by decide)⟩

/-! ## C17: gas changes off the samples -/

/-- C17: with `SURFACE_THRESHOLD > -2342`, an event named "gaschange" whose
time is the time of no sample is never interesting, for sorted samples and
every window: the lookup returns the sentinel, which is below the
threshold.  Conversely, when `isInteresting` returns true for a
"gaschange" event, the depth looked up at its time is not the sentinel and
is at least the threshold. -/
theorem gaschange_off_samples_uninteresting {Dive : Type} (X : Externals Dive) (d : Dive)
    (dc : divecomputer) (ev : event) (pi : plot_info) (firstSecond lastSecond : Int)
    (hname : ev.name = "gaschange")
    (hthr : X.SURFACE_THRESHOLD > DEPTH_NOT_FOUND) :
    (SortedByTime pi → (∀ s ∈ pi.entry, s.sec ≠ ev.time) →
      depthAtTime pi ev.time = some (-2342) ∧
      isInteresting X d dc ev pi firstSecond lastSecond = some false) ∧
    (isInteresting X d dc ev pi firstSecond lastSecond = some true →
      ∃ depth, depthAtTime pi ev.time = some depth ∧ depth ≠ DEPTH_NOT_FOUND ∧
        depth ≥ X.SURFACE_THRESHOLD) := by
  have hg : strcmp ev.name "gaschange" = 0 := (strcmp_eq_zero _ _).mpr hname
  constructor
  · intro _ hnone
    have hd := depthAtTime_of_absent pi ev.time hnone
    refine ⟨hd, ?_⟩
    have hcond : initialGaschange X dc ev pi = some true := by
      unfold initialGaschange
      simp only [hg, if_true, hd]
      by_cases h0 : ev.time = 0
      · simp [h0]
      · simp only [h0, if_false]
        split
        · rfl
        · simp [hthr]
    unfold isInteresting
    by_cases hout : outsidePlotRange ev firstSecond lastSecond = true
    · simp [hout]
    · simp [hout, hcond]
  · intro htrue
    obtain ⟨depth, hd⟩ := depthAtTime_returns pi ev.time
    have hge : depth ≥ X.SURFACE_THRESHOLD := by
      by_contra hlt
      have hlt' : depth < X.SURFACE_THRESHOLD := not_le.mp hlt
      have hcond : initialGaschange X dc ev pi = some true := by
        unfold initialGaschange
        simp only [hg, if_true, hd]
        by_cases h0 : ev.time = 0
        · simp [h0]
        · simp only [h0, if_false]
          split
          · rfl
          · simp [hlt']
      unfold isInteresting at htrue
      by_cases hout : outsidePlotRange ev firstSecond lastSecond = true
      · simp [hout] at htrue
      · simp [hout, hcond] at htrue
    refine ⟨depth, hd, ?_, hge⟩
    intro he
    rw [he] at hge
    exact absurd hthr (not_lt.mpr hge)

/-- C17, on the samples at 0, 10 and 20 seconds: a gas change at 15 seconds
is not interesting, and the interesting gas change at 20 seconds lies at
1200 mm. -/
theorem gaschange_off_samples_uninteresting_witness :
    isInteresting sampleExternals () sampleComputer (mkGaschange "gaschange" 15 air)
      profileB 0 100 = some false ∧
    ∃ depth, depthAtTime profileB (mkGaschange "gaschange" 20 air).time = some depth ∧
      depth ≠ DEPTH_NOT_FOUND ∧ depth ≥ sampleExternals.SURFACE_THRESHOLD :=
  ⟨((gaschange_off_samples_uninteresting sampleExternals () sampleComputer
      (mkGaschange "gaschange" 15 air) profileB 0 100 (by decide) (by decide)).1
      (by unfold SortedByTime profileB; decide) (by decide)).2,
   (gaschange_off_samples_uninteresting sampleExternals () sampleComputer
      (mkGaschange "gaschange" 20 air) profileB 0 100 (by decide) (by decide)).2 (by decide)⟩

/-! ## C18: the depth lookup on any samples -/

/-- C18: on every sample sequence, sorted or not, empty or not, and for
every time `t`, the lookup terminates: the search loop ends with an
iterator `it` within the `nr` iterations `lower_bound` allows it, and
already within `k` iterations whenever `nr < 2 ^ k`.  It reads only inside
the sequence, and it returns either the sentinel or the depth of a sample
whose time is exactly `t`. -/
theorem depthAtTime_sound (pi : plot_info) (t : Int) :
    (∃ it, lower_bound pi t = some it ∧ it ≤ pi.nr ∧
      ∀ k, pi.nr < 2 ^ k → lowerBoundLoop pi.entry t k 0 pi.nr = some it) ∧
    ∃ depth, depthAtTime pi t = some depth ∧
      (depth = DEPTH_NOT_FOUND ∨ ∃ s ∈ pi.entry, s.sec = t ∧ s.depth = depth) := by
  obtain ⟨r, hr, hle, hd⟩ := depthAtTime_spec_total pi t
  refine ⟨⟨r, hr, hle, ?_⟩, _, hd, ?_⟩
  · intro k hk
    rw [← hr]
    exact lowerBoundLoop_enough pi.entry t k pi.nr 0 pi.nr hk (Nat.lt_two_pow pi.nr)
  · by_cases hrlt : r < pi.entry.length
    · by_cases hs : (pi.entry.get ⟨r, hrlt⟩).sec = t
      · right
        refine ⟨pi.entry.get ⟨r, hrlt⟩, List.get_mem _ _ _, hs, ?_⟩
        rw [dif_pos hrlt, if_pos hs]
      · left
        rw [dif_pos hrlt, if_neg hs]
    · left
      rw [dif_neg hrlt]

/-- C18, on the unsorted series `[(20,7),(10,5),(20,9)]` and `t = 20`: one
iteration does not end the loop, two do, with the iterator `lower_bound`
returns; the lookup at 20 gives the depth 9 of a sample at 20, and the
lookup at 10 gives the sentinel. -/
theorem depthAtTime_sound_witness :
    lowerBoundLoop profileU.entry 20 1 0 profileU.nr = none ∧
    (∃ it, lower_bound profileU 20 = some it ∧
      lowerBoundLoop profileU.entry 20 2 0 profileU.nr = some it) ∧
    depthAtTime profileU 20 = some 9 ∧
    depthAtTime profileU 10 = some DEPTH_NOT_FOUND :=
  ⟨by decide,
   (depthAtTime_sound profileU 20).1.elim
      (fun it h => ⟨it, h.1, h.2.2 2 (by decide)⟩),
   by decide, by decide⟩

/-! ## C19: what the interest filter keeps -/

/-- C19: an event in the window, `firstSecond ≤ time < lastSecond`, whose
name is neither exactly "gaschange" nor exactly "surface" is interesting,
whatever the samples, the duration of the dive, and the type, value and
flags of the event. -/
theorem isInteresting_other_names {Dive : Type} (X : Externals Dive) (d : Dive)
    (dc : divecomputer) (ev : event) (pi : plot_info) (firstSecond lastSecond : Int)
    (hfirst : firstSecond ≤ ev.time) (hlast : ev.time < lastSecond)
    (hg : ev.name ≠ "gaschange") (hs : ev.name ≠ "surface") :
    isInteresting X d dc ev pi firstSecond lastSecond = some true := by
  have hout : outsidePlotRange ev firstSecond lastSecond = false := by
    unfold outsidePlotRange
    simp; omega
  have hs' : strcmp ev.name "surface" ≠ 0 := fun h => hs ((strcmp_eq_zero _ _).mp h)
  unfold isInteresting
  simp [hout, initialGaschange_other X dc ev pi hg, hs']

/-- C19, on events named "Surface" at 5 seconds, "GasChange" at time 0 and
a gas-change-typed "gas switch" off the samples: all are interesting. -/
theorem isInteresting_other_names_witness :
    isInteresting sampleExternals () sampleComputer (mkEvent "Surface" 9 0 5)
      profileB 0 100 = some true ∧
    isInteresting sampleExternals () sampleComputer (mkGaschange "GasChange" 0 air)
      profileB 0 100 = some true ∧
    isInteresting sampleExternals () sampleComputer (mkGaschange "gas switch" 15 air)
      profileB 0 100 = some true :=
  ⟨isInteresting_other_names sampleExternals () sampleComputer (mkEvent "Surface" 9 0 5)
      profileB 0 100 (by decide) (by decide) (by decide) (by decide),
   isInteresting_other_names sampleExternals () sampleComputer (mkGaschange "GasChange" 0 air)
      profileB 0 100 (by decide) (by decide) (by decide) (by decide),
   isInteresting_other_names sampleExternals () sampleComputer (mkGaschange "gas switch" 15 air)
      profileB 0 100 (by decide) (by decide) (by decide) (by decide)⟩

/-! ## C20: the icon and the tooltip on mode changes -/

/-- C20: the icon classifier and the tooltip builder disagree on what a
mode change is.  For a name equal to "modechange" ignoring case the icon
is the bailout or the CCR-loop icon; but when the event is a gas change
the tooltip is the gas-change text, and when it is not and the name is not
exactly "modechange" the tooltip is the plain value or the begin and end
text: in neither case the mode name.  The events named "ModeChange", and
named "modechange" with a gas-change type, are such events. -/
theorem icon_tooltip_disagree {Dive : Type} (X : Externals Dive) (dive : Dive)
    (lastgasmix : gasmix) (pixmaps : DivePixmaps) :
    (∀ ev : event, same_string_caseinsensitive ev.name "modechange" = true →
      (setupPixmap X dive ev lastgasmix pixmaps).1 =
        (if ev.value = 0 then Icon.bailout else Icon.onCCRLoop) ∧
      (X.event_is_gaschange ev = true →
        setupToolTipString X dive ev lastgasmix =
          some (toolTipImg ++ (X.gettextFromC_tr ev.name ++
            gaschangeText X dive ev lastgasmix))) ∧
      (X.event_is_gaschange ev = false → ev.name ≠ "modechange" →
        setupToolTipString X dive ev lastgasmix =
          some (toolTipImg ++ (X.gettextFromC_tr ev.name ++
            (if ev.value ≠ 0 then ": " ++ toString ev.value
             else if Int.land ev.flags X.SAMPLE_FLAGS_BEGIN ≠ 0 then
               X.tr " begin" "Starts with space!"
             else if Int.land ev.flags X.SAMPLE_FLAGS_END ≠ 0 then
               X.tr " end" "Starts with space!"
             else ""))))) ∧
    ((setupPixmap sampleExternals () (mkEvent "ModeChange" 8 0 300) air samplePixmaps).1 =
        Icon.bailout ∧
      setupToolTipString sampleExternals () (mkEvent "ModeChange" 8 0 300) air =
        some (toolTipImg ++ "ModeChange") ∧
      setupToolTipString sampleExternals () (mkEvent "ModeChange" 8 0 300) air ≠
        some (toolTipImg ++ ("ModeChange" ++ (": " ++ "Open circuit")))) ∧
    ((setupPixmap sampleExternals () (mkEvent "modechange" 11 1 300) air samplePixmaps).1 =
        Icon.onCCRLoop ∧
      setupToolTipString sampleExternals () (mkEvent "modechange" 11 1 300) air =
        some (toolTipImg ++ "modechange: air") ∧
      setupToolTipString sampleExternals () (mkEvent "modechange" 11 1 300) air ≠
        some (toolTipImg ++ ("modechange" ++ (": " ++ "CCR")))) := by
  refine ⟨?_, by decide, by decide⟩
  intro ev hci
  have hne : empty_string ev.name = false :=
    not_empty_of_same_caseinsensitive ev.name "modechange" (by decide) hci
  refine ⟨?_, ?_, ?_⟩
  · unfold setupPixmap
    by_cases hv : ev.value = 0 <;> simp [hne, hci, hv]
  · intro hgas
    unfold setupToolTipString
    simp [hgas]
  · intro hgas hname
    have hm : same_string ev.name "modechange" = false := by
      rw [← Bool.not_eq_true, same_string_iff]; exact hname
    have hsp : same_string ev.name "SP change" = false := by
      rw [← Bool.not_eq_true, same_string_iff]
      intro h
      rw [h] at hci
      exact absurd hci (by decide)
    have hpw : same_string ev.name "planned waypoint above ceiling" = false := by
      rw [← Bool.not_eq_true, same_string_iff]
      intro h
      rw [h] at hci
      exact absurd hci (by decide)
    unfold setupToolTipString valueText
    by_cases hv : ev.value = 0
    · simp [hgas, hm, hsp, hv]
    · simp [hgas, hm, hsp, hpw, hv]

/-- C20, on an event named "MODECHANGE" with value 2 and the end flag, for
the general part: the CCR-loop icon, and the tooltip "MODECHANGE: 2". -/
theorem icon_tooltip_disagree_witness :
    (setupPixmap sampleExternals () (mkFlagged "MODECHANGE" 8 2 2 300) air samplePixmaps).1 =
      Icon.onCCRLoop ∧
    setupToolTipString sampleExternals () (mkFlagged "MODECHANGE" 8 2 2 300) air =
      some (toolTipImg ++ "MODECHANGE: 2") :=
  ⟨((icon_tooltip_disagree sampleExternals () air samplePixmaps).1
      (mkFlagged "MODECHANGE" 8 2 2 300) (by decide)).1,
   ((icon_tooltip_disagree sampleExternals () air samplePixmaps).1
      (mkFlagged "MODECHANGE" 8 2 2 300) (by decide)).2.2 (by decide) (by decide)⟩

end Subsurface
